import Mathlib

/-!
Verification of the PATABOL match-simulation and session-lifecycle core.

The definitions below are a shallow embedding of the Python sources:
  * `src/core/patabol.py`   (pool generator, match simulation engine),
  * `src/core/sesiones.py`  (session store and lifecycle),
  * `src/bot/core.py`       (channel-agnostic command processing),
  * `src/bot/formatters.py` (message formatting used by the commands).

Modelling conventions:
  * Python `float` probabilities are modelled as exact rationals (`ℚ`);
  * Python `int` is modelled as `ℤ` (counters, attributes) or `ℕ` (sizes,
    indices), with Python's truncating behaviour (`[x] * n` with `n ≤ 0`
    is empty, etc.) made explicit;
  * the process-wide random generator is modelled as a pair of oracle
    streams: `floats` for `random.random()` draws and `picks` for index
    selections (`random.choice`, `random.sample`, `random.randint`); a
    call consumes one stream position, and claims quantify over all
    streams, so every outcome reachable by the Python RNG is covered;
  * Python object identity of pool players inside a session is modelled
    by storing pool indices (`ℕ`) in rosters;
  * the `while True` resampling loops (unique display names, unique
    session codes) are modelled with explicit fuel; exhausted fuel
    corresponds to random streams on which the Python loop would keep
    resampling, and is given a total fallback;
  * string handling (`.upper()`, `.strip()`, `.isdigit()`, `.split()`)
    is modelled on ASCII, which covers every string the program itself
    produces.
-/

namespace Patabol

/-! ## Random oracle (models the implicit global `random` module) -/

/-- Oracle for the global random generator: `floats i` models the `i`-th
`random.random()` draw (a value in `[0,1)`), `picks i` models the `i`-th
index-style draw (`random.choice`, `random.sample`, `random.randint`). -/
structure Rng where
  floats : Nat → ℚ
  picks : Nat → Nat

/-- A fixed dull oracle used for concrete evaluations. -/
def rngZero : Rng := ⟨fun _ => 0, fun _ => 0⟩

/-! ## Domain: roles and players (`src/core/patabol.py`) -/

/-- `class Rol(Enum)` of `src/core/patabol.py`. -/
inductive Rol where
  | PORTERO
  | DEFENSA
  | MEDIO
  | DELANTERO
deriving DecidableEq, Repr

open Rol

/-- `Rol.value`: the display string of each role. -/
def Rol.value : Rol → String
  | .PORTERO => "Portero"
  | .DEFENSA => "Defensa"
  | MEDIO => "Medio"
  | .DELANTERO => "Delantero"

/-- `@dataclass Patabolista` of `src/core/patabol.py`: attributes plus
per-match counters. -/
structure Patabolista where
  id : String
  nombre : String
  rol_preferido : Rol
  control : ℤ
  velocidad : ℤ
  fuerza : ℤ
  regate : ℤ
  magia : ℤ
  toques : ℤ := 0
  pases : ℤ := 0
  regates_exitosos : ℤ := 0
  robos : ℤ := 0
  faltas : ℤ := 0
  goles : ℤ := 0
  atajadas : ℤ := 0
deriving DecidableEq, Repr

instance : Inhabited Patabolista :=
  ⟨{ id := "", nombre := "", rol_preferido := .PORTERO, control := 0,
     velocidad := 0, fuerza := 0, regate := 0, magia := 0 }⟩

/-- `Patabolista.reset_estadisticas`. -/
def Patabolista.reset_estadisticas (p : Patabolista) : Patabolista :=
  { p with toques := 0, pases := 0, regates_exitosos := 0, robos := 0,
           faltas := 0, goles := 0, atajadas := 0 }

/-- `Patabolista.obtener_estadisticas` (a dict literal in the source). -/
def Patabolista.obtener_estadisticas (p : Patabolista) : List (String × ℤ) :=
  [("toques", p.toques), ("pases", p.pases),
   ("regates_exitosos", p.regates_exitosos), ("robos", p.robos),
   ("faltas", p.faltas), ("goles", p.goles), ("atajadas", p.atajadas)]

/-- `Patabolista.nombre_con_id`: `f"{self.nombre} [{self.id}]"`. -/
def Patabolista.nombre_con_id (p : Patabolista) : String :=
  p.nombre ++ " [" ++ p.id ++ "]"

/-! ## ASCII string helpers (Python `str` methods used by the sources) -/

/-- Python whitespace characters (ASCII part), by code point:
space, tab, newline, carriage return, vertical tab, form feed. -/
def esEspacio (c : Char) : Bool :=
  c.toNat = 32 || c.toNat = 9 || c.toNat = 10 || c.toNat = 13 ||
    c.toNat = 11 || c.toNat = 12

/-- `str.upper` on one character (ASCII): `a`-`z` (97-122) map down by 32. -/
def mayuscula (c : Char) : Char :=
  if 97 ≤ c.toNat ∧ c.toNat ≤ 122 then Char.ofNat (c.toNat - 32) else c

/-- `str.lower` on one character (ASCII): `A`-`Z` (65-90) map up by 32. -/
def minuscula (c : Char) : Char :=
  if 65 ≤ c.toNat ∧ c.toNat ≤ 90 then Char.ofNat (c.toNat + 32) else c

/-- ASCII decimal digit test (`str.isdigit` on the strings the program
produces): `0`-`9` are code points 48-57. -/
def esDigito (c : Char) : Bool :=
  48 ≤ c.toNat && c.toNat ≤ 57

/-- `str.strip()` on a character list: drop whitespace from both ends. -/
def pyStrip (l : List Char) : List Char :=
  ((l.dropWhile esEspacio).reverse.dropWhile esEspacio).reverse

/-- `str.strip()` on strings. -/
def pyStripStr (s : String) : String :=
  String.mk (pyStrip s.data)

/-- `str.upper()` on strings (ASCII). -/
def pyUpper (s : String) : String :=
  String.mk (s.data.map mayuscula)

/-- `str.lower()` on strings (ASCII). -/
def pyLower (s : String) : String :=
  String.mk (s.data.map minuscula)

/-- Parse an all-digit character list as a number (`int(texto)`). -/
def digitosANat (l : List Char) : Nat :=
  l.foldl (fun n c => 10 * n + (c.toNat - 48)) 0

/-- The character of one decimal digit. -/
def digitoChar (d : Nat) : Char := Char.ofNat (48 + d)

/-- Decimal printing worker, structurally recursive on explicit fuel so
that it evaluates inside the kernel; `fuel ≥ n` is always sufficient. -/
def natADigitosF : Nat → Nat → List Char
  | 0, n => [digitoChar n]
  | fuel + 1, n =>
    if n < 10 then [digitoChar n]
    else natADigitosF fuel (n / 10) ++ [digitoChar (n % 10)]

/-- Print a number in decimal (`str(n)` for a non-negative int). -/
def natADigitos (n : Nat) : List Char := natADigitosF n n

/-- Python `str.split()` (split on whitespace runs, dropping empties):
worker over the character list with an accumulator of the current word
(reversed). -/
def splitWsAux : List Char → List Char → List String
  | [], acc => if acc.isEmpty then [] else [String.mk acc.reverse]
  | c :: rest, acc =>
    if esEspacio c then
      if acc.isEmpty then splitWsAux rest []
      else String.mk acc.reverse :: splitWsAux rest []
    else splitWsAux rest (c :: acc)

/-- Python `str.split()` with no arguments. -/
def pySplitWs (s : String) : List String :=
  splitWsAux s.data []

/-- `" ".join(parts)`. -/
def pyJoinSp (parts : List String) : String :=
  String.intercalate " " parts

/-! ## Player-id normalization (`normalizar_id_patabolista`, `src/bot/core.py`) -/

/-- The pattern test and rebuild of `normalizar_id_patabolista`, applied to
the already stripped and uppercased text: if it starts with `"P"` followed
by one or more digits, rebuild it as `"P" + str(int(texto[1:]))`, else
return it unchanged. -/
def normalizarNucleo (t : List Char) : List Char :=
  match t with
  | c :: rest =>
    if c = 'P' ∧ rest ≠ [] ∧ rest.all esDigito then
      'P' :: natADigitos (digitosANat rest)
    else t
  | [] => t

/-- Core of `normalizar_id_patabolista` on a character list:
`texto = texto.strip().upper()`, then the pattern rebuild. -/
def normalizarIdL (l : List Char) : List Char :=
  normalizarNucleo ((pyStrip l).map mayuscula)

/-- `normalizar_id_patabolista` of `src/bot/core.py`. -/
def normalizar_id_patabolista (s : String) : String :=
  String.mk (normalizarIdL s.data)

/-! ## Success probability helper (`SimuladorPartido._calcular_probabilidad_exito`) -/

/-- `_calcular_probabilidad_exito(atributo, base) = min(0.95, base + (atributo - 5) * 0.1)`. -/
def calcular_probabilidad_exito (atributo : ℤ) (base : ℚ) : ℚ :=
  min (95/100 : ℚ) (base + (atributo - 5) * (1/10))

/-- `SimuladorPartido._aplicar_magia`: flair bonus applied to a player's own
success probability; returns the adjusted probability and the "epic" flag. -/
def aplicar_magia (jugador : Patabolista) (probabilidad_base : ℚ) : ℚ × Bool :=
  if jugador.magia ≥ 9 then (min (98/100 : ℚ) (probabilidad_base + 3/10), true)
  else if jugador.magia ≥ 7 then (min (95/100 : ℚ) (probabilidad_base + 15/100), true)
  else if jugador.magia ≥ 4 then (min (90/100 : ℚ) (probabilidad_base + 5/100), false)
  else (probabilidad_base, false)

/-! ## Pool generation (`GeneradorPool`, `src/core/patabol.py`) -/

/-- Counters into the two oracle streams of `Rng`. -/
structure Cnt where
  fi : Nat
  pi : Nat
deriving DecidableEq, Repr

/-- `random.choice(l)`: one pick-stream draw selecting an element. -/
def pyChoice [Inhabited α] (r : Rng) (c : Cnt) (l : List α) : α × Cnt :=
  (l.getD (r.picks c.pi % l.length) default, { c with pi := c.pi + 1 })

/-- `random.randint(a, b)` (both ends inclusive): one pick-stream draw. -/
def pyRandInt (r : Rng) (c : Cnt) (a b : ℤ) : ℤ × Cnt :=
  (a + (r.picks c.pi % (b - a + 1).toNat : ℕ), { c with pi := c.pi + 1 })

/-- `random.random()`: one float-stream draw. -/
def pyRandom (r : Rng) (c : Cnt) : ℚ × Cnt :=
  (r.floats c.fi, { c with fi := c.fi + 1 })

/-- `GeneradorPool.NOMBRES_POSIBLES`. -/
def NOMBRES_POSIBLES : List String :=
  ["Leo", "Bruno", "Carlos", "Diego", "Luis", "Miguel", "Javier",
   "Andrés", "Fernando", "Ricardo", "Sergio", "Alejandro", "Roberto",
   "Daniel", "Pablo", "Manuel", "Francisco", "Antonio", "José", "Juan"]

/-- `GeneradorPool.APELLIDOS_POSIBLES`. -/
def APELLIDOS_POSIBLES : List String :=
  ["Rayo", "Fierro", "Veloz", "Torre", "Acero", "Rápido", "Fuerte",
   "Ágil", "Noble", "Bravo", "Lince", "Tigre", "León", "Águila",
   "Trueno", "Relámpago", "Viento", "Fuego", "Hielo", "Sombra"]

/-- `GeneradorPool._generar_nombre_unico`: the `while True` resampling loop,
modelled with explicit fuel. When fuel runs out (a random stream on which
the Python loop would keep colliding), the last candidate is returned. -/
def generar_nombre_unico (r : Rng) (usados : List String) (c : Cnt) : Nat → String × Cnt
  | 0 =>
    let (nombre, c1) := pyChoice r c NOMBRES_POSIBLES
    let (apellido, c2) := pyChoice r c1 APELLIDOS_POSIBLES
    (nombre ++ " " ++ apellido, c2)
  | fuel + 1 =>
    let (nombre, c1) := pyChoice r c NOMBRES_POSIBLES
    let (apellido, c2) := pyChoice r c1 APELLIDOS_POSIBLES
    let nombre_completo := nombre ++ " " ++ apellido
    if nombre_completo ∈ usados then generar_nombre_unico r usados c2 fuel
    else (nombre_completo, c2)

/-- `GeneradorPool._generar_magia`: 60% in 1-3, 30% in 4-6, 9% in 7-8,
1% in 9-10. -/
def generar_magia (r : Rng) (c : Cnt) : ℤ × Cnt :=
  let (rand, c1) := pyRandom r c
  if rand < 60/100 then pyRandInt r c1 1 3
  else if rand < 90/100 then pyRandInt r c1 4 6
  else if rand < 99/100 then pyRandInt r c1 7 8
  else pyRandInt r c1 9 10

/-- `GeneradorPool._generar_atributos_por_rol`: role-biased attribute draws,
each clamped to `[1, 10]`. -/
def generar_atributos_por_rol (r : Rng) (c : Cnt) (rol : Rol) :
    (ℤ × ℤ × ℤ × ℤ) × Cnt :=
  let (base, c0) := pyRandInt r c 1 10
  let (control, velocidad, fuerza, regate, cf) :=
    match rol with
    | Rol.PORTERO =>
      let (d1, c1) := pyRandInt r c0 0 3
      let (velocidad, c2) := pyRandInt r c1 2 6
      let (d2, c3) := pyRandInt r c2 2 4
      let (regate, c4) := pyRandInt r c3 1 5
      (min 10 (base + d1), velocidad, min 10 (base + d2), regate, c4)
    | Rol.DEFENSA =>
      let (control, c1) := pyRandInt r c0 3 7
      let (velocidad, c2) := pyRandInt r c1 3 7
      let (d1, c3) := pyRandInt r c2 1 3
      let (regate, c4) := pyRandInt r c3 2 6
      (control, velocidad, min 10 (base + d1), regate, c4)
    | MEDIO =>
      let (d1, c1) := pyRandInt r c0 0 2
      let (velocidad, c2) := pyRandInt r c1 4 8
      let (fuerza, c3) := pyRandInt r c2 3 7
      let (d2, c4) := pyRandInt r c3 0 2
      (min 10 (base + d1), velocidad, fuerza, min 10 (base + d2), c4)
    | Rol.DELANTERO =>
      let (control, c1) := pyRandInt r c0 4 8
      let (d1, c2) := pyRandInt r c1 1 3
      let (fuerza, c3) := pyRandInt r c2 2 6
      let (d2, c4) := pyRandInt r c3 2 4
      (control, min 10 (base + d1), fuerza, min 10 (base + d2), c4)
  ((max 1 (min 10 control), max 1 (min 10 velocidad),
    max 1 (min 10 fuerza), max 1 (min 10 regate)), cf)

/-- `roles_distribucion` hard-coded for the default pool size of 15:
2 goalkeepers, 4 defenders, 5 midfielders, 4 forwards. -/
def roles_distribucion_base : List Rol :=
  [.PORTERO, .PORTERO,
   .DEFENSA, .DEFENSA, .DEFENSA, .DEFENSA,
   MEDIO, MEDIO, MEDIO, MEDIO, MEDIO,
   .DELANTERO, .DELANTERO, .DELANTERO, .DELANTERO]

/-- `GeneradorPool._ajustar_distribucion`: proportional role template for a
non-default pool size. A Python list multiplied by a non-positive count is
empty, which is the `ℕ` truncated subtraction below. -/
def ajustar_distribucion (cantidad : Nat) : List Rol :=
  let porteros := max 1 (cantidad / 8)
  let defensas := max 1 (cantidad / 4)
  let medios := max 1 (cantidad / 3)
  let delanteros := cantidad - (porteros + defensas + medios)
  (List.replicate porteros Rol.PORTERO ++ List.replicate defensas Rol.DEFENSA ++
   List.replicate medios MEDIO ++ List.replicate delanteros Rol.DELANTERO).take cantidad

/-- Loop body of `GeneradorPool.generar_pool`: builds one player per role,
threading the used-names set and the oracle counters. -/
def generar_pool_aux (r : Rng) :
    List Rol → Nat → List String → Cnt → List Patabolista × Cnt
  | [], _, _, c => ([], c)
  | rol :: resto, i, usados, c =>
    let nc := generar_nombre_unico r usados c 400
    let ac := generar_atributos_por_rol r nc.2 rol
    let mc := generar_magia r ac.2
    let patabolista : Patabolista :=
      { id := "P" ++ String.mk (natADigitos (i + 1)), nombre := nc.1,
        rol_preferido := rol, control := ac.1.1, velocidad := ac.1.2.1,
        fuerza := ac.1.2.2.1, regate := ac.1.2.2.2, magia := mc.1 }
    let res := generar_pool_aux r resto (i + 1) (usados ++ [nc.1]) mc.2
    (patabolista :: res.1, res.2)

/-- `GeneradorPool.generar_pool`. -/
def generar_pool (r : Rng) (c : Cnt) (cantidad : Nat) : List Patabolista × Cnt :=
  let roles_distribucion :=
    if cantidad = 15 then roles_distribucion_base else ajustar_distribucion cantidad
  generar_pool_aux r (roles_distribucion.take cantidad) 0 [] c

/-! ## Match events and results (`src/core/patabol.py`) -/

/-- `@dataclass Evento`. -/
structure Evento where
  minuto : Nat
  segundo : Nat
  descripcion : String
  tipo : String
deriving DecidableEq, Repr, Inhabited

/-- `@dataclass ResultadoPartido`. Per-id statistics dicts are ordered
association lists, as Python dicts are insertion-ordered. -/
structure ResultadoPartido where
  goles_equipo_a : ℤ
  goles_equipo_b : ℤ
  eventos : List Evento
  estadisticas_equipo_a : List (String × List (String × ℤ))
  estadisticas_equipo_b : List (String × List (String × ℤ))
  jugador_del_partido : Option Patabolista
deriving DecidableEq, Repr

/-! ## Match simulation (`SimuladorPartido`, `src/core/patabol.py`)

The mutable simulator object is the state record `Sim`. Python holds the
ball-holder as an object reference into one of the two team lists; here it
is the pair (team-A flag, index into that team's list). -/

/-- The mutable state of `SimuladorPartido`, plus the oracle counters. -/
structure Sim where
  equipo_a : List Patabolista
  equipo_b : List Patabolista
  posesion_equipo_a : Bool
  jugador_con_pelota : Option (Bool × Nat)
  goles_a : ℤ
  goles_b : ℤ
  eventos : List Evento
  fi : Nat
  pi : Nat
deriving DecidableEq, Repr

/-- The team list designated by a side flag (`true` = team A). -/
def equipoDe (s : Sim) (lado : Bool) : List Patabolista :=
  if lado then s.equipo_a else s.equipo_b

/-- Read the player referenced by (side, index). -/
def jugadorEn (s : Sim) (lado : Bool) (i : Nat) : Patabolista :=
  (equipoDe s lado).getD i default

/-- In-place mutation of the player referenced by (side, index). -/
def modificarJugador (s : Sim) (lado : Bool) (i : Nat)
    (f : Patabolista → Patabolista) : Sim :=
  if lado then { s with equipo_a := s.equipo_a.set i (f (s.equipo_a.getD i default)) }
  else { s with equipo_b := s.equipo_b.set i (f (s.equipo_b.getD i default)) }

/-- `random.random()` inside the simulator. -/
def randFloat (r : Rng) (s : Sim) : ℚ × Sim :=
  (r.floats s.fi, { s with fi := s.fi + 1 })

/-- `random.choice` over a list of length `n` inside the simulator:
the chosen index. -/
def randPick (r : Rng) (s : Sim) (n : Nat) : Nat × Sim :=
  (r.picks s.pi % n, { s with pi := s.pi + 1 })

/-- `SimuladorPartido._obtener_portero_rival` as a (side, index) reference:
first rival player flagged goalkeeper, or rival index 0 if none. -/
def porteroRivalIdx (s : Sim) : Bool × Nat :=
  let lado := !s.posesion_equipo_a
  (lado, ((equipoDe s lado).findIdx? (fun j => j.rol_preferido == Rol.PORTERO)).getD 0)

/-- `SimuladorPartido._seleccionar_accion`: the stochastic action choice.
The short-circuit `and` means only forwards consume the 30%-shot draw. -/
def seleccionar_accion (r : Rng) (s : Sim) (jugador : Patabolista) : String × Sim :=
  if jugador.rol_preferido = Rol.DELANTERO then
    let (u, s1) := randFloat r s
    if u < 3/10 then ("intentar_gol", s1)
    else
      let (v, s2) := randFloat r s1
      if v < 4/10 then ("intentar_quitar_pelota", s2)
      else
        let (k, s3) := randPick r s2 2
        (if k = 0 then "avanzar_con_pelota" else "lanzar_pelota", s3)
  else
    let (v, s1) := randFloat r s
    if v < 4/10 then ("intentar_quitar_pelota", s1)
    else
      let (k, s2) := randPick r s1 2
      (if k = 0 then "avanzar_con_pelota" else "lanzar_pelota", s2)

/-- The `"avanzar_con_pelota"` branch of `_procesar_estado`, including
`_avanzar_con_pelota` and the trailing lost-ball rule. -/
def paso_avanzar (r : Rng) (s : Sim) (lado : Bool) (i : Nat)
    (minuto seg : Nat) : Sim :=
  let s1 := modificarJugador s lado i (fun p => { p with toques := p.toques + 1 })
  let j := jugadorEn s1 lado i
  let prob := (aplicar_magia j (calcular_probabilidad_exito j.control (6/10))).1
  let us2 := randFloat r s1
  let s2 := us2.2
  if us2.1 < prob then
    { s2 with eventos := s2.eventos ++
        [⟨minuto, seg, j.nombre_con_id ++ " avanza con la pelota", "avance"⟩] }
  else
    { s2 with posesion_equipo_a := !s2.posesion_equipo_a, jugador_con_pelota := none }

/-- The `"lanzar_pelota"` branch of `_procesar_estado`, including
`_lanzar_pelota` and the trailing lost-ball rule. Note `_lanzar_pelota`
itself already credits the passer one pass before the outcome is drawn, and
the success branch credits a second one. -/
def paso_lanzar (r : Rng) (s : Sim) (lado : Bool) (i : Nat)
    (minuto seg : Nat) : Sim :=
  let s1 := modificarJugador s lado i
    (fun p => { p with toques := p.toques + 1, pases := p.pases + 1 })
  let j := jugadorEn s1 lado i
  let prob := (aplicar_magia j (calcular_probabilidad_exito j.control (7/10))).1
  let us2 := randFloat r s1
  let s2 := us2.2
  if us2.1 < prob then
    let ladoPos := s2.posesion_equipo_a
    let ks3 := randPick r s2 (equipoDe s2 ladoPos).length
    let ci := ks3.1
    let s3 := ks3.2
    let compania := jugadorEn s3 ladoPos ci
    let s4 := modificarJugador s3 lado i (fun p => { p with pases := p.pases + 1 })
    let s5 := modificarJugador s4 ladoPos ci (fun p => { p with toques := p.toques + 1 })
    { s5 with jugador_con_pelota := some (ladoPos, ci),
              eventos := s5.eventos ++
                [⟨minuto, seg, j.nombre_con_id ++ " pasa a " ++ compania.nombre_con_id,
                  "pase"⟩] }
  else
    { s2 with posesion_equipo_a := !s2.posesion_equipo_a, jugador_con_pelota := none }

/-- The `"intentar_quitar_pelota"` branch of `_procesar_estado`, including
`_intentar_quitar_pelota`; the steal path reassigns possession and the
holder explicitly (no holder-clear). -/
def paso_quitar (r : Rng) (s : Sim) (lado : Bool) (i : Nat)
    (minuto seg : Nat) : Sim :=
  let rivalLado := !s.posesion_equipo_a
  let ds1 := randPick r s (equipoDe s rivalLado).length
  let di := ds1.1
  let s1 := ds1.2
  let s2 := modificarJugador s1 lado i (fun p => { p with toques := p.toques + 1 })
  let s3 := modificarJugador s2 rivalLado di (fun p => { p with toques := p.toques + 1 })
  let atacante := jugadorEn s3 lado i
  let defensor := jugadorEn s3 rivalLado di
  let prob_ataque := calcular_probabilidad_exito atacante.regate (5/10)
  let prob_defensa := calcular_probabilidad_exito defensor.fuerza (5/10)
  let prob_final := (aplicar_magia atacante (prob_ataque - (prob_defensa - 5/10) * (3/10))).1
  let prob_falta := 1/10 + ((defensor.fuerza : ℚ) - 5) * (5/100)
  let us4 := randFloat r s3
  let s4 := us4.2
  if us4.1 < prob_falta then
    let s5 := modificarJugador s4 rivalLado di (fun p => { p with faltas := p.faltas + 1 })
    { s5 with eventos := s5.eventos ++
        [⟨minuto, seg, "Falta de " ++ defensor.nombre_con_id ++ " sobre " ++
          atacante.nombre_con_id, "falta"⟩] }
  else
    let vs5 := randFloat r s4
    let s5 := vs5.2
    if vs5.1 < prob_final then
      let s6 := modificarJugador s5 lado i
        (fun p => { p with regates_exitosos := p.regates_exitosos + 1 })
      { s6 with eventos := s6.eventos ++
          [⟨minuto, seg, atacante.nombre_con_id ++ " regatea a " ++
            defensor.nombre_con_id, "regate"⟩] }
    else
      let s6 := modificarJugador s5 rivalLado di (fun p => { p with robos := p.robos + 1 })
      { s6 with posesion_equipo_a := !s6.posesion_equipo_a,
                jugador_con_pelota := some (rivalLado, di),
                eventos := s6.eventos ++
                  [⟨minuto, seg, defensor.nombre_con_id ++ " roba la pelota a " ++
                    atacante.nombre_con_id, "robo"⟩] }

/-- The `"intentar_gol"` branch of `_procesar_estado` (guarded again by the
forward-role test, as in the source), including `_intentar_gol` and the
flair-weighted epic flag. -/
def paso_gol (r : Rng) (s : Sim) (lado : Bool) (i : Nat)
    (minuto seg : Nat) : Sim :=
  if (jugadorEn s lado i).rol_preferido = Rol.DELANTERO then
    let pr := porteroRivalIdx s
    let s1 := modificarJugador s lado i (fun p => { p with toques := p.toques + 1 })
    let delantero := jugadorEn s1 lado i
    let portero := jugadorEn s1 pr.1 pr.2
    let prob_gol := calcular_probabilidad_exito delantero.control (3/10) +
      calcular_probabilidad_exito delantero.regate (2/10)
    let prob_atajada := calcular_probabilidad_exito portero.control (4/10)
    let prob_final := (aplicar_magia delantero (prob_gol - (prob_atajada - 4/10) * (4/10))).1
    let us2 := randFloat r s1
    let s2 := us2.2
    if us2.1 < prob_final then
      let s3 := modificarJugador s2 lado i (fun p => { p with goles := p.goles + 1 })
      let s4 := if s3.posesion_equipo_a then { s3 with goles_a := s3.goles_a + 1 }
                else { s3 with goles_b := s3.goles_b + 1 }
      let ms5 := randFloat r s4
      let s5 := ms5.2
      let hubo_magia := ms5.1 < (delantero.magia : ℚ) / 10
      let descripcion := "⚽ GOOOL de " ++ delantero.nombre_con_id ++ "!" ++
        (if hubo_magia || delantero.magia ≥ 7 then " ¡Jugada ÉPICA con toque mágico!" else "")
      { s5 with jugador_con_pelota := none,
                eventos := s5.eventos ++ [⟨minuto, seg, descripcion, "gol"⟩] }
    else
      let s3 := modificarJugador s2 pr.1 pr.2 (fun p => { p with atajadas := p.atajadas + 1 })
      { s3 with jugador_con_pelota := none,
                eventos := s3.eventos ++
                  [⟨minuto, seg, portero.nombre_con_id ++ " ataja el intento de " ++
                    delantero.nombre_con_id, "atajada"⟩] }
  else s

/-- Start of `_procesar_estado`: pick a holder from the possessing side when
the ball-holder is unset. -/
def asegurar_portador (r : Rng) (s : Sim) : Sim :=
  match s.jugador_con_pelota with
  | some _ => s
  | none =>
    let lado := s.posesion_equipo_a
    let ks1 := randPick r s (equipoDe s lado).length
    { ks1.2 with jugador_con_pelota := some (lado, ks1.1) }

/-- `SimuladorPartido._procesar_estado`: one 10-second tick. -/
def procesar_estado (r : Rng) (s : Sim) (estado : Nat) : Sim :=
  let segundo := estado * 10
  let minuto := segundo / 60
  let s0 := asegurar_portador r s
  match s0.jugador_con_pelota with
  | none => s0
  | some li =>
    let jugador := jugadorEn s0 li.1 li.2
    let acc_s := seleccionar_accion r s0 jugador
    let s1 := acc_s.2
    if acc_s.1 = "avanzar_con_pelota" then paso_avanzar r s1 li.1 li.2 minuto (segundo % 60)
    else if acc_s.1 = "lanzar_pelota" then paso_lanzar r s1 li.1 li.2 minuto (segundo % 60)
    else if acc_s.1 = "intentar_quitar_pelota" then
      paso_quitar r s1 li.1 li.2 minuto (segundo % 60)
    else paso_gol r s1 li.1 li.2 minuto (segundo % 60)

/-- `SimuladorPartido.TOTAL_ESTADOS`: 30 ticks of 10 seconds. -/
def TOTAL_ESTADOS : Nat := 30

/-- `SimuladorPartido.__init__` (statistics reset) followed by the start of
`simular` (random initial possession, holder unset). -/
def sim_inicial (r : Rng) (equipo_a equipo_b : List Patabolista) : Sim :=
  let s0 : Sim :=
    { equipo_a := equipo_a.map Patabolista.reset_estadisticas,
      equipo_b := equipo_b.map Patabolista.reset_estadisticas,
      posesion_equipo_a := true, jugador_con_pelota := none,
      goles_a := 0, goles_b := 0, eventos := [], fi := 0, pi := 0 }
  let us1 := randFloat r s0
  { us1.2 with posesion_equipo_a := us1.1 < 1/2, jugador_con_pelota := none }

/-- The simulator state after the first `k` ticks of the loop of `simular`. -/
def sim_parcial (r : Rng) (equipo_a equipo_b : List Patabolista) (k : Nat) : Sim :=
  (List.range k).foldl (fun st e => procesar_estado r st e)
    (sim_inicial r equipo_a equipo_b)

/-- The simulator state after the 30-tick loop of `simular`. -/
def estado_final (r : Rng) (equipo_a equipo_b : List Patabolista) : Sim :=
  sim_parcial r equipo_a equipo_b TOTAL_ESTADOS

/-- The most-valuable-player key of `simular`:
`goles * 3 + regates_exitosos * 2 + robos + pases`. -/
def mvp_valor (j : Patabolista) : ℤ :=
  j.goles * 3 + j.regates_exitosos * 2 + j.robos + j.pases

/-- CPython `max(iterable, key=...)`: keeps the current item unless a later
item's key is strictly greater, so the first maximal item wins. -/
def pyMax (key : α → ℤ) : List α → Option α
  | [] => none
  | x :: xs => some (xs.foldl (fun b y => if key y > key b then y else b) x)

/-- `SimuladorPartido.simular`. -/
def simular (r : Rng) (equipo_a equipo_b : List Patabolista) : ResultadoPartido :=
  let fin := estado_final r equipo_a equipo_b
  { goles_equipo_a := fin.goles_a, goles_equipo_b := fin.goles_b,
    eventos := fin.eventos,
    estadisticas_equipo_a := fin.equipo_a.map (fun j => (j.id, j.obtener_estadisticas)),
    estadisticas_equipo_b := fin.equipo_b.map (fun j => (j.id, j.obtener_estadisticas)),
    jugador_del_partido := pyMax mvp_valor (fin.equipo_a ++ fin.equipo_b) }

/-- `todos = self.equipo_a + self.equipo_b` at the end of `simular`:
final roster A followed by final roster B. -/
def todos_final (r : Rng) (equipo_a equipo_b : List Patabolista) : List Patabolista :=
  (estado_final r equipo_a equipo_b).equipo_a ++
    (estado_final r equipo_a equipo_b).equipo_b

/-! ## Session store (`src/core/sesiones.py`)

Rosters inside a session are lists of pool indices: Python stores object
references into the session's pool, and `pool_disponible_para` compares
those references by identity (`id(p)`), which indices model exactly.
The Python module-level dicts `_sesiones_activas` and `_usuario_a_sesion`
are the fields of `Mundo`; Python dicts are insertion-ordered, so they are
ordered association lists here. -/

/-- `MAX_JUGADORES_EQUIPO = 5`. -/
def MAX_JUGADORES_EQUIPO : Nat := 5

/-- `MAX_JUGADORES_EN_SESION = 2`. -/
def MAX_JUGADORES_EN_SESION : Nat := 2

/-- `BOT_NUMERO_TELEFONO`. -/
def BOT_NUMERO_TELEFONO : String := "PATABOL_BOT"

/-- `NOMBRES_EQUIPO_POR_DEFECTO`. -/
def NOMBRES_EQUIPO_POR_DEFECTO : List String :=
  ["Los Rayos", "Fieras FC", "Tormenta", "Acero", "Relámpagos",
   "Águilas", "Leones", "Tigres", "Viento Norte", "Fuego Sagrado",
   "Hielo", "Sombra", "Bravo", "Noble", "Lince"]

/-- `class EstadoSesion(Enum)`. -/
inductive EstadoSesion where
  | ESPERANDO_JUGADORES
  | SELECCIONANDO_EQUIPOS
  | AMBOS_LISTOS
  | PARTIDO_SIMULADO
deriving DecidableEq, Repr

/-- `class EstadoEquipo(Enum)`. -/
inductive EstadoEquipo where
  | PENDIENTE_CONFIRMACION
  | CONFIRMADO
deriving DecidableEq, Repr

/-- `@dataclass JugadorEnSesion`; `equipo` holds pool indices. -/
structure JugadorEnSesion where
  numero_telefono : String
  nickname : String
  nombre_equipo : String
  equipo : List Nat := []
  estado_equipo : EstadoEquipo := .PENDIENTE_CONFIRMACION
deriving DecidableEq, Repr

/-- `@dataclass Sesion`. -/
structure Sesion where
  session_id : String
  pool : List Patabolista
  jugadores : List (String × JugadorEnSesion) := []
  estado : EstadoSesion := .ESPERANDO_JUGADORES
  creador_numero : Option String := none
  ultimo_resultado : Option ResultadoPartido := none
  ultimo_equipo_a : List Patabolista := []
  ultimo_equipo_b : List Patabolista := []
  ultimo_nombre_a : String := ""
  ultimo_nombre_b : String := ""
deriving DecidableEq, Repr

/-- Python `dict[k] = v`: overwrite in place if present, else append. -/
def dictSet (l : List (String × α)) (k : String) (v : α) : List (String × α) :=
  if (List.lookup k l).isSome then l.map (fun p => if p.1 = k then (k, v) else p)
  else l ++ [(k, v)]

/-- Python `dict.pop(k, None)`. -/
def dictPop (l : List (String × α)) (k : String) : List (String × α) :=
  l.filter (fun p => p.1 ≠ k)

/-- `Sesion.jugador_por_telefono`. -/
def Sesion.jugador_por_telefono (s : Sesion) (numero : String) : Option JugadorEnSesion :=
  List.lookup numero s.jugadores

/-- `Sesion.patabolistas_ya_seleccionados` (as pool indices). -/
def Sesion.patabolistas_ya_seleccionados (s : Sesion) : List Nat :=
  (s.jugadores.map (fun p => p.2.equipo)).flatten

/-- `Sesion.pool_sin_seleccionar` (as pool indices, in pool order). -/
def Sesion.pool_sin_seleccionar (s : Sesion) : List Nat :=
  (List.range s.pool.length).filter
    (fun i => !s.patabolistas_ya_seleccionados.contains i)

/-- `Sesion.pool_disponible_para`: pool entries not held by any *other*
participant (as pool indices, in pool order). -/
def Sesion.pool_disponible_para (s : Sesion) (numero_telefono : String) : List Nat :=
  let elegidos_por_otros :=
    ((s.jugadores.filter (fun p => p.1 ≠ numero_telefono)).map (fun p => p.2.equipo)).flatten
  (List.range s.pool.length).filter (fun i => !elegidos_por_otros.contains i)

/-- Resolve a list of pool indices to the pool's players. -/
def Sesion.delPool (s : Sesion) (idxs : List Nat) : List Patabolista :=
  idxs.map (fun i => s.pool.getD i default)

/-- `JugadorEnSesion.tiene_equipo_completo`: `len(self.equipo) >= 1`. -/
def JugadorEnSesion.tiene_equipo_completo (j : JugadorEnSesion) : Bool :=
  1 ≤ j.equipo.length

/-- `JugadorEnSesion.equipo_confirmado`. -/
def JugadorEnSesion.equipo_confirmado (j : JugadorEnSesion) : Bool :=
  j.estado_equipo == EstadoEquipo.CONFIRMADO

/-- `Sesion.actualizar_estado`. -/
def Sesion.actualizar_estado (s : Sesion) : Sesion :=
  if s.jugadores.length < MAX_JUGADORES_EN_SESION then
    { s with estado := .ESPERANDO_JUGADORES }
  else if s.jugadores.all (fun p => p.2.tiene_equipo_completo) then
    { s with estado := .AMBOS_LISTOS }
  else { s with estado := .SELECCIONANDO_EQUIPOS }

/-- `Sesion.listas_para_simular`. -/
def Sesion.listas_para_simular (s : Sesion) : Bool :=
  s.jugadores.length == MAX_JUGADORES_EN_SESION &&
    s.jugadores.all (fun p => p.2.tiene_equipo_completo)

/-- `Sesion.equipos_confirmados`. -/
def Sesion.equipos_confirmados (s : Sesion) : Bool :=
  s.jugadores.length == MAX_JUGADORES_EN_SESION &&
    s.jugadores.all (fun p => p.2.tiene_equipo_completo && p.2.equipo_confirmado)

/-- The module-level mutable state of `src/core/sesiones.py` plus the
oracle counters. -/
structure Mundo where
  sesiones : List (String × Sesion) := []
  usuario_a_sesion : List (String × String) := []
  cnt : Cnt := ⟨0, 0⟩
deriving DecidableEq, Repr

/-- The session-code alphabet `string.ascii_uppercase + string.digits`. -/
def CARACTERES_SESION : List Char :=
  "ABCDEFGHIJKLMNOPQRSTUVWXYZ0123456789".data

/-- `generar_sesion_id`: 6 uniform draws from the 36-character alphabet. -/
def generar_sesion_id (r : Rng) (c : Cnt) : String × Cnt :=
  let ch := fun (k : Nat) => CARACTERES_SESION.getD (r.picks (c.pi + k) % 36) 'A'
  (String.mk [ch 0, ch 1, ch 2, ch 3, ch 4, ch 5], { c with pi := c.pi + 6 })

/-- The `while session_id in _sesiones_activas` regeneration loop, with
explicit fuel; exhausted fuel (a stream that keeps colliding) falls back to
a code that is fresh by construction. -/
def sesion_id_unico (r : Rng) (activas : List String) : Cnt → Nat → String × Cnt
  | c, 0 => (String.join activas ++ "X0", c)
  | c, fuel + 1 =>
    let (sid, c1) := generar_sesion_id r c
    if activas.contains sid then sesion_id_unico r activas c1 fuel else (sid, c1)

/-- `generar_nombre_equipo_aleatorio`. -/
def generar_nombre_equipo_aleatorio (r : Rng) (c : Cnt) : String × Cnt :=
  pyChoice r c NOMBRES_EQUIPO_POR_DEFECTO

/-- `nombre_equipo or generar_nombre_equipo_aleatorio()`: Python `or`
treats both `None` and the empty string as falsy. -/
def nombre_equipo_o_aleatorio (r : Rng) (c : Cnt) (nombre_equipo : Option String) :
    String × Cnt :=
  match nombre_equipo with
  | some ne => if ne = "" then generar_nombre_equipo_aleatorio r c else (ne, c)
  | none => generar_nombre_equipo_aleatorio r c

/-- `crear_sesion`: fresh code, fresh 15-player pool, creator registered. -/
def crear_sesion (r : Rng) (w : Mundo) (numero_creador nickname_creador : String)
    (nombre_equipo : Option String) : Sesion × Mundo :=
  let idc := sesion_id_unico r (w.sesiones.map (fun p => p.1)) w.cnt 100
  let pc := generar_pool r idc.2 15
  let nc := nombre_equipo_o_aleatorio r pc.2 nombre_equipo
  let jugador : JugadorEnSesion :=
    { numero_telefono := numero_creador, nickname := nickname_creador,
      nombre_equipo := nc.1, equipo := [] }
  let sesion : Sesion :=
    { session_id := idc.1, pool := pc.1, jugadores := [(numero_creador, jugador)],
      estado := .SELECCIONANDO_EQUIPOS, creador_numero := some numero_creador }
  (sesion, { sesiones := dictSet w.sesiones idc.1 sesion,
             usuario_a_sesion := dictSet w.usuario_a_sesion numero_creador idc.1,
             cnt := nc.2 })

/-- `unirse_sesion`: returns `(ok, message, joined session if ok)` plus the
updated store. -/
def unirse_sesion (r : Rng) (w : Mundo) (session_id numero_telefono nickname : String)
    (nombre_equipo : Option String) : (Bool × String × Option Sesion) × Mundo :=
  let sid := pyStripStr (pyUpper session_id)
  match List.lookup sid w.sesiones with
  | none => ((false, "No existe una sesión con el código " ++ sid ++ ".", none), w)
  | some sesion =>
    if MAX_JUGADORES_EN_SESION ≤ sesion.jugadores.length then
      ((false, "La sesión ya tiene el máximo de jugadores.", none), w)
    else if (List.lookup numero_telefono sesion.jugadores).isSome then
      ((false, "Ya estás en esta sesión.", none), w)
    else
      let nc := nombre_equipo_o_aleatorio r w.cnt nombre_equipo
      let jugador : JugadorEnSesion :=
        { numero_telefono := numero_telefono, nickname := nickname,
          nombre_equipo := nc.1, equipo := [] }
      let sesion2 :=
        ({ sesion with jugadores := dictSet sesion.jugadores numero_telefono jugador
         } : Sesion).actualizar_estado
      ((true, "Te uniste a la sesión como '" ++ nickname ++ "' (equipo: " ++
          nc.1 ++ ").", some sesion2),
       { sesiones := dictSet w.sesiones sid sesion2,
         usuario_a_sesion := dictSet w.usuario_a_sesion numero_telefono sid,
         cnt := nc.2 })

/-- `agregar_bot_a_sesion`: creator-only; the scripted opponent joins with an
empty roster and is not added to the user-to-session index. -/
def agregar_bot_a_sesion (r : Rng) (w : Mundo) (session_id numero_creador : String)
    (nombre_equipo : Option String) : (Bool × String × Option Sesion) × Mundo :=
  let sid := pyStripStr (pyUpper session_id)
  match List.lookup sid w.sesiones with
  | none => ((false, "No existe una sesión con el código " ++ sid ++ ".", none), w)
  | some sesion =>
    if sesion.creador_numero = none ∨ sesion.creador_numero ≠ some numero_creador then
      ((false, "Solo el creador de la sesión puede agregar a la IA.", none), w)
    else if MAX_JUGADORES_EN_SESION ≤ sesion.jugadores.length then
      ((false, "La sesión ya tiene el máximo de jugadores.", none), w)
    else if (List.lookup BOT_NUMERO_TELEFONO sesion.jugadores).isSome then
      ((false, "La IA ya está en esta sesión.", none), w)
    else
      let nc := nombre_equipo_o_aleatorio r w.cnt nombre_equipo
      let jugador_bot : JugadorEnSesion :=
        { numero_telefono := BOT_NUMERO_TELEFONO, nickname := "IA",
          nombre_equipo := nc.1, equipo := [] }
      let sesion2 :=
        ({ sesion with
             jugadores := dictSet sesion.jugadores BOT_NUMERO_TELEFONO jugador_bot
         } : Sesion).actualizar_estado
      ((true, "✅ IA unida a la sesión (equipo: " ++ nc.1 ++
          "). Elige tu equipo con /s o /a; la IA elegirá el suyo automáticamente.",
        some sesion2),
       { w with sesiones := dictSet w.sesiones sid sesion2, cnt := nc.2 })

/-- `obtener_sesion_de_usuario`, also returning the store key of the found
session so that callers can write mutations back. -/
def obtener_sesion_de_usuario (w : Mundo) (numero_telefono : String) :
    Option (String × Sesion) :=
  match List.lookup numero_telefono w.usuario_a_sesion with
  | none => none
  | some sid =>
    if sid = "" then none
    else match List.lookup sid w.sesiones with
         | none => none
         | some s => some (sid, s)

/-- `salir_sesion`: drop the user from the index and the session; a session
with no human participant left is discarded. -/
def salir_sesion (w : Mundo) (numero_telefono : String) : Mundo :=
  match List.lookup numero_telefono w.usuario_a_sesion with
  | none => w
  | some sid =>
    let w1 := { w with usuario_a_sesion := dictPop w.usuario_a_sesion numero_telefono }
    if sid = "" then w1
    else
      match List.lookup sid w1.sesiones with
      | none => w1
      | some sesion =>
        let sesion2 :=
          ({ sesion with jugadores := dictPop sesion.jugadores numero_telefono
           } : Sesion).actualizar_estado
        let humanos :=
          (sesion2.jugadores.map (fun p => p.1)).filter
            (fun k => k ≠ BOT_NUMERO_TELEFONO)
        if humanos.length = 0 then { w1 with sesiones := dictPop w1.sesiones sid }
        else { w1 with sesiones := dictSet w1.sesiones sid sesion2 }

/-- `marcar_partido_simulado`: set the terminal `PARTIDO_SIMULADO` state. -/
def marcar_partido_simulado (w : Mundo) (session_id : String) : Mundo :=
  match List.lookup session_id w.sesiones with
  | none => w
  | some sesion =>
    let sesion2 : Sesion := { sesion with estado := .PARTIDO_SIMULADO }
    { w with sesiones := dictSet w.sesiones session_id sesion2 }

/-! ## Message formatting (`src/bot/formatters.py`) -/

instance : Inhabited JugadorEnSesion :=
  ⟨{ numero_telefono := "", nickname := "", nombre_equipo := "" }⟩

/-- `"=" * 30`, the separator line used by several formatters. -/
def lineaSep : String := String.mk (List.replicate 30 '=')

/-- `valor_a_estrellas`: map a 1-10 value to 1-5 filled stars. Python `//`
is floor division, hence `Int.fdiv`. -/
def valor_a_estrellas (valor : ℤ) : String :=
  let num_estrellas := min 5 (max 1 (Int.fdiv (valor + 1) 2))
  String.join (List.replicate num_estrellas.toNat "⭐") ++
    String.join (List.replicate (5 - num_estrellas).toNat "☆")

/-- `formatear_detalle_patabolista`. -/
def formatear_detalle_patabolista (p : Patabolista) : String :=
  "👤 DETALLE DE PATABOLISTA\n" ++ lineaSep ++ "\n\n" ++
  "🆔 ID: " ++ p.id ++ "\n" ++
  "📛 Nombre: " ++ p.nombre_con_id ++ "\n" ++
  "🏷️ Rol: " ++ p.rol_preferido.value ++ "\n\n" ++
  "📊 ATRIBUTOS:\n" ++
  "🎯 Control:   " ++ valor_a_estrellas p.control ++ " (" ++ toString p.control ++ "/10)\n" ++
  "⚡ Velocidad: " ++ valor_a_estrellas p.velocidad ++ " (" ++ toString p.velocidad ++ "/10)\n" ++
  "💪 Fuerza:    " ++ valor_a_estrellas p.fuerza ++ " (" ++ toString p.fuerza ++ "/10)\n" ++
  "🌀 Regate:    " ++ valor_a_estrellas p.regate ++ " (" ++ toString p.regate ++ "/10)\n"

/-- `formatear_pool`. -/
def formatear_pool (pool : List Patabolista) (mensaje_adicional : Option String) : String :=
  if pool.isEmpty then
    "No hay patabolistas disponibles en el pool (ya fueron elegidos)."
  else
    "📋 POOL DE PATABOLISTAS\n" ++ lineaSep ++ "\n\n" ++
    String.join (pool.enum.map (fun ip =>
      toString (ip.1 + 1) ++ ". " ++ ip.2.nombre_con_id ++ "\n" ++
      "   🏷️ Rol: " ++ ip.2.rol_preferido.value ++ "\n")) ++
    (match mensaje_adicional with
     | some m => "\n" ++ m
     | none => "")

/-- `formatear_resultado`. The source reads `jugador_del_partido` without a
`None` check (with `None` it would be a Python crash; `simular` always sets
it for non-empty rosters), modelled by the `default` fallback. -/
def formatear_resultado (resultado : ResultadoPartido)
    (nombre_equipo_a nombre_equipo_b : String) : String :=
  let jd := resultado.jugador_del_partido.getD default
  "🏆 RESULTADO FINAL\n" ++ lineaSep ++ "\n" ++
  nombre_equipo_a ++ ": " ++ toString resultado.goles_equipo_a ++ "\n" ++
  nombre_equipo_b ++ ": " ++ toString resultado.goles_equipo_b ++ "\n\n" ++
  (if resultado.goles_equipo_b < resultado.goles_equipo_a then
    "🎉 ¡Ganador: " ++ nombre_equipo_a ++ "!\n\n"
   else if resultado.goles_equipo_a < resultado.goles_equipo_b then
    "🎉 ¡Ganador: " ++ nombre_equipo_b ++ "!\n\n"
   else "🤝 Empate. Buen partido.\n\n") ++
  "⭐ Jugador del Partido: " ++ jd.nombre_con_id ++ "\n" ++
  "Goles: " ++ toString jd.goles ++ ", Regates: " ++ toString jd.regates_exitosos ++
  ", " ++ "Robos: " ++ toString jd.robos ++ ", Pases: " ++ toString jd.pases ++ "\n"

/-- One player's line pair in `formatear_estadisticas`. -/
def lineaEstadisticas (jugador : Patabolista) : String :=
  jugador.nombre_con_id ++ ":\n" ++
  "  G:" ++ toString jugador.goles ++ " P:" ++ toString jugador.pases ++ " " ++
  "Rg:" ++ toString jugador.regates_exitosos ++ " Rb:" ++ toString jugador.robos ++
  " F:" ++ toString jugador.faltas ++ "\n"

/-- `formatear_estadisticas`. -/
def formatear_estadisticas (equipo_a equipo_b : List Patabolista)
    (nombre_equipo_a nombre_equipo_b : String) : String :=
  "📊 ESTADÍSTICAS RESUMIDAS\n" ++ lineaSep ++ "\n\n" ++
  "👥 " ++ nombre_equipo_a ++ ":\n" ++
  String.join (equipo_a.map lineaEstadisticas) ++
  "\n👥 " ++ nombre_equipo_b ++ ":\n" ++
  String.join (equipo_b.map lineaEstadisticas)

/-! ## Command processing (`src/bot/core.py`)

`procesar_comando` takes a raw command string and a user id and returns the
reply messages plus the session to simulate when both confirmations are in.
The `enviar_a_usuario` callback only delivers side notifications to other
participants and never touches session state, so it is not modelled. -/

/-- `FILTROS_POOL`. -/
def FILTROS_POOL : List (String × Rol) :=
  [("port", .PORTERO), ("def", .DEFENSA), ("med", MEDIO), ("del", .DELANTERO)]

/-- `MAX_POOL_SIN_FILTRO = 15`. -/
def MAX_POOL_SIN_FILTRO : Nat := 15

/-- `ALIASES`. -/
def ALIASES : List (String × String) :=
  [("/u", "/unirse"), ("/p", "/pool"), ("/d", "/detalle"), ("/s", "/seleccionar"),
   ("/a", "/seleccionar_auto"), ("/q", "/quitar"), ("/e", "/equipo"),
   ("/c", "/confirmar"), ("/est", "/estadisticas"), ("/h", "/ayuda")]

/-- `MENSAJE_NO_CONECTADO`. -/
def MENSAJE_NO_CONECTADO : String :=
  "❌ No estás conectado a ninguna sesión.\n\n" ++
  "Para jugar:\n• Crea una sesión: _/sesion_ <nickname> [nombre_equipo]\n" ++
  "• O únete a una existente: _/unirse_ *(/u)* <código> <nickname> [nombre_equipo]\n\n" ++
  "Pide el código a quien organice si vas a unirte."

/-- `MENSAJE_AYUDA`. -/
def MENSAJE_AYUDA : String :=
  "⚽ PATABOL - Comandos disponibles:\n\n" ++
  "_/sesion_ <nickname> [nombre_equipo] - Crea una nueva sesión (te une y te da el código para compartir)\n" ++
  "_/unirse_ *(/u)* <código> <nickname> [nombre_equipo] - Únete a una sesión existente. Creador: _/u_ *ia* [nombre_equipo] para jugar vs IA (nombre opcional)\n" ++
  "_/pool_ *(/p)* [port|def|med|del] - Pool disponible. Filtros: port (porteros), def (defensas), med (medios), del (delanteros)\n" ++
  "_/detalle_ *(/d)* <id> - Muestra detalle de un patabolista\n" ++
  "_/seleccionar_ *(/s)* <id1> [id2] ... - Selecciona tu equipo (entre 1 y 5 jugadores)\n" ++
  "_/seleccionar_auto_ *(/a)* - Elige tu equipo automáticamente (5 jugadores, con portero)\n" ++
  "_/quitar_ *(/q)* <id> - Devuelve un jugador de tu equipo al pool para elegir otro\n" ++
  "_/equipo_ *(/e)* - Muestra tu equipo actualmente seleccionado\n" ++
  "_/confirmar_ *(/c)* - Confirma tu equipo (el partido inicia automáticamente cuando ambos confirman)\n" ++
  "_/estadisticas_ *(/est)* - Muestra estadísticas del último partido\n" ++
  "_/salir_ - Salir de la sesión actual\n" ++
  "_/ayuda_ *(/h)* - Muestra esta ayuda\n"

/-- Python `round()`: round half to even, on exact rationals. -/
def pyRound (q : ℚ) : ℤ :=
  let f := ⌊q⌋
  if q - f < 1/2 then f
  else if (1/2 : ℚ) < q - f then f + 1
  else if f % 2 = 0 then f else f + 1

/-- `random.sample(l, k)`: `k` distinct positions drawn via the pick
stream, removing each chosen element before the next draw. -/
def pySample [Inhabited α] (r : Rng) : Cnt → List α → Nat → List α × Cnt
  | c, _, 0 => ([], c)
  | c, l, k + 1 =>
    if l.isEmpty then ([], c)
    else
      let idx := r.picks c.pi % l.length
      let x := l.getD idx default
      let resto := pySample r ⟨c.fi, c.pi + 1⟩ (l.eraseIdx idx) k
      (x :: resto.1, resto.2)

/-- `muestra_estratificada_pool`: up to `n` players, stratified by role. -/
def muestra_estratificada_pool (r : Rng) (c : Cnt) (pool : List Patabolista)
    (n : Nat) : List Patabolista × Cnt :=
  if pool.length ≤ n then (pool, c)
  else
    let total := pool.length
    let paso := fun (acc : List Patabolista × Nat × Cnt) (rol : Rol) =>
      let grupo := pool.filter (fun p => p.rol_preferido == rol)
      if grupo.isEmpty || acc.2.1 = 0 then acc
      else
        let tomar0 : Nat :=
          if total ≠ 0 then max 1 (pyRound ((n : ℚ) * grupo.length / total)).toNat
          else grupo.length
        let tomar := min (min tomar0 acc.2.1) grupo.length
        let muestra := pySample r acc.2.2 grupo tomar
        (acc.1 ++ muestra.1, acc.2.1 - tomar, muestra.2)
    let tras := [Rol.PORTERO, Rol.DEFENSA, MEDIO, Rol.DELANTERO].foldl paso ([], n, c)
    let resultado := tras.1
    let fin :=
      if resultado.length < n ∧ resultado.length < pool.length then
        let faltan := pool.filter (fun p => !resultado.contains p)
        let extra := min (n - resultado.length) faltan.length
        let muestra := pySample r tras.2.2 faltan extra
        (resultado ++ muestra.1, muestra.2)
      else (resultado, tras.2.2)
    (fin.1.take n, fin.2)

/-- The draft rule of `_seleccionar_equipo_bot_si_aplica` (one goalkeeper
first when one is eligible and the target size is positive, then a random
fill, capped at `MAX_JUGADORES_EQUIPO`). -/
def borrador_equipo (r : Rng) (c : Cnt) (pool : List Patabolista)
    (disponible : List Nat) : List Nat × Cnt :=
  let cantidad := min MAX_JUGADORES_EQUIPO disponible.length
  let porteros := disponible.filter
    (fun i => (pool.getD i default).rol_preferido == Rol.PORTERO)
  let paso1 :=
    if !porteros.isEmpty ∧ 0 < cantidad then
      let el := pyChoice r c porteros
      ([el.1], el.2)
    else (([] : List Nat), c)
  let candidatos := disponible.filter (fun i => !paso1.1.contains i)
  let faltan := cantidad - paso1.1.length
  if 0 < faltan ∧ !candidatos.isEmpty then
    let m := pySample r paso1.2 candidatos (min faltan candidatos.length)
    (paso1.1 ++ m.1, m.2)
  else paso1

/-- `_seleccionar_equipo_bot_si_aplica`: the scripted opponent drafts via
`borrador_equipo` and is auto-confirmed — called only from the `/confirmar`
branch, i.e. only after a human confirmation. -/
def seleccionar_equipo_bot_si_aplica (r : Rng) (c : Cnt) (sesion : Sesion) :
    Sesion × Cnt :=
  if sesion.jugadores.length ≠ 2 then (sesion, c)
  else
    match List.lookup BOT_NUMERO_TELEFONO sesion.jugadores with
    | none => (sesion, c)
    | some bot_jugador =>
      if !bot_jugador.equipo.isEmpty then (sesion, c)
      else
        let disponible := sesion.pool_disponible_para BOT_NUMERO_TELEFONO
        if disponible.isEmpty then (sesion, c)
        else
          let paso2 := borrador_equipo r c sesion.pool disponible
          if paso2.1.isEmpty then (sesion, paso2.2)
          else
            let equipo := paso2.1
            let bot2 :=
              { bot_jugador with equipo := equipo, estado_equipo := EstadoEquipo.CONFIRMADO }
            (({ sesion with
                 jugadores := dictSet sesion.jugadores BOT_NUMERO_TELEFONO bot2
              } : Sesion).actualizar_estado, paso2.2)

/-- `_mensaje_config_equipo` (roster indices resolved against the pool). -/
def mensaje_config_equipo (pool : List Patabolista) (jugador : JugadorEnSesion) : String :=
  "✅ " ++ jugador.nickname ++ " confirmó el equipo *" ++ jugador.nombre_equipo ++ "*:\n" ++
  String.join (jugador.equipo.enum.map (fun ip =>
    let p := pool.getD ip.2 default
    "  " ++ toString (ip.1 + 1) ++ ". " ++ p.nombre_con_id ++ " (" ++
      p.rol_preferido.value ++ ")\n"))

/-- The per-id resolution loop of the `/seleccionar` branch: first missing
id aborts with its error message, otherwise the indices in submission
order (duplicates preserved). -/
def resolver_ids_seleccion (disponibles_ids : List (String × Nat)) :
    List String → Except String (List Nat)
  | [] => .ok []
  | id_jugador :: resto =>
    match List.lookup (normalizar_id_patabolista id_jugador) disponibles_ids with
    | none => .error ("❌ " ++ id_jugador ++
        " no está disponible (no existe o ya fue elegido por el otro). Usa /pool.")
    | some i =>
      match resolver_ids_seleccion disponibles_ids resto with
      | .error e => .error e
      | .ok l => .ok (i :: l)

/-- Reply of `procesar_comando`: user-facing messages plus the session to
simulate (the ready-to-simulate signal), plus the updated module state. -/
structure Respuesta where
  mensajes : List String
  senal : Option Sesion
  mundo : Mundo
deriving DecidableEq, Repr

/-- The `/sesion` branch for an unconnected user. -/
def cmdSesionNueva (r : Rng) (w : Mundo) (partes : List String) (user_id : String) :
    Respuesta :=
  if partes.length < 2 then
    ⟨["❌ Uso: /sesion <nickname> [nombre_equipo]\nEjemplo: /sesion Leo Los Rayos\n\n" ++
      MENSAJE_NO_CONECTADO], none, w⟩
  else
    let nickname := partes.getD 1 ""
    let nombre_equipo :=
      if 2 < partes.length then some (pyJoinSp (partes.drop 2)) else none
    let creada := crear_sesion r w user_id nickname nombre_equipo
    let nueva_sesion := creada.1
    let nombre_final := ((nueva_sesion.jugador_por_telefono user_id).getD default).nombre_equipo
    let msg :=
      "✅ Sesión creada. Te uniste como '" ++ nickname ++ "' (equipo: " ++
      nombre_final ++ ").\n\n" ++
      "📌 Código para compartir con otros jugadores: *" ++ nueva_sesion.session_id ++
      "*\n\n" ++
      "• Para jugar contra la IA: _/u ia_ o _/u ia_ <nombre_equipo>\n" ++
      "• Para que otro jugador se una: /u <código> <nickname>\n\n" ++
      "Usa /p para ver patabolistas y /s para elegir tu equipo."
    ⟨[msg, MENSAJE_AYUDA], none, creada.2⟩

/-- The `/unirse` branch for an unconnected user. -/
def cmdUnirse (r : Rng) (w : Mundo) (partes : List String) (user_id : String) :
    Respuesta :=
  if partes.length < 3 then
    ⟨["❌ Uso: /unirse <código> <nickname> [nombre_equipo]\nEjemplo: /unirse ABC123 Ana\n\n" ++
      MENSAJE_NO_CONECTADO], none, w⟩
  else
    let codigo := partes.getD 1 ""
    let nickname := partes.getD 2 ""
    let nombre_equipo :=
      if 3 < partes.length then some (pyJoinSp (partes.drop 3)) else none
    let res := unirse_sesion r w codigo user_id nickname nombre_equipo
    if res.1.1 then ⟨[res.1.2.1, MENSAJE_AYUDA], none, res.2⟩
    else ⟨[res.1.2.1], none, res.2⟩

/-- The `/unirse ia` branch for a connected user (creator adds the bot). -/
def cmdUnirseIa (r : Rng) (w : Mundo) (partes : List String) (user_id : String)
    (sesion : Sesion) : Respuesta :=
  let codigo := sesion.session_id
  let nombre_ia0 := pyStripStr (pyJoinSp (partes.drop 2))
  let nombre_equipo_ia := if nombre_ia0 = "" then none else some nombre_ia0
  let res := agregar_bot_a_sesion r w codigo user_id nombre_equipo_ia
  ⟨[res.1.2.1], none, res.2⟩

/-- The `/pool` branch. -/
def cmdPool (r : Rng) (w : Mundo) (partes : List String) (sesion : Sesion) :
    Respuesta :=
  let disponible0 := sesion.delPool sesion.pool_sin_seleccionar
  let filtro_rol : Option Rol :=
    if 1 < partes.length then
      List.lookup (pyStripStr (pyLower (partes.getD 1 ""))) FILTROS_POOL
    else none
  let disponible :=
    match filtro_rol with
    | some rol => disponible0.filter (fun p => p.rol_preferido == rol)
    | none => disponible0
  if MAX_POOL_SIN_FILTRO < disponible.length ∧ filtro_rol = none then
    let muestra := muestra_estratificada_pool r w.cnt disponible MAX_POOL_SIN_FILTRO
    let no_mostrados := disponible.length - muestra.1.length
    let mensaje_adicional :=
      "📌 Hay " ++ toString no_mostrados ++ " jugadores más.\n" ++
      "Filtros: /p port (porteros), /p def (defensas), /p med (medios), /p del (delanteros)"
    ⟨[formatear_pool muestra.1 (some mensaje_adicional)], none, { w with cnt := muestra.2 }⟩
  else if disponible.isEmpty ∧ filtro_rol ≠ none then
    ⟨["❌ No hay patabolistas disponibles con ese filtro. Usa /p para ver todos."], none, w⟩
  else ⟨[formatear_pool disponible none], none, w⟩

/-- The `/detalle` branch. -/
def cmdDetalle (w : Mundo) (partes : List String) (sesion : Sesion) : Respuesta :=
  if partes.length ≠ 2 then
    ⟨["❌ Uso: /detalle <id> o /d <id>\nEjemplo: /d P1"], none, w⟩
  else
    let id_buscado := normalizar_id_patabolista (partes.getD 1 "")
    match sesion.pool.find? (fun p => normalizar_id_patabolista p.id == id_buscado) with
    | none =>
      ⟨["❌ Patabolista " ++ id_buscado ++ " no encontrado. Usa /pool para ver IDs."],
       none, w⟩
    | some p => ⟨[formatear_detalle_patabolista p], none, w⟩

/-- Shared tail of the two roster-selection branches: the follow-up hint
appended to the confirmation message. -/
def sufijoSeleccion (sesion : Sesion) : String :=
  if sesion.listas_para_simular then
    "\nUsá _/confirmar_ o _/c_ para confirmar tu equipo. Solo equipos confirmados pueden jugar."
  else if (List.lookup BOT_NUMERO_TELEFONO sesion.jugadores).isSome then
    "\nUsá _/confirmar_ o _/c_ para confirmar tu equipo. La IA elegirá el suyo cuando confirmes."
  else "\nEsperando al otro jugador para que elija su equipo."

/-- One roster line of the selection confirmation messages. -/
def lineaSeleccion (pool : List Patabolista) (i : Nat) : String :=
  let p := pool.getD i default
  "  - " ++ p.nombre_con_id ++ " (" ++ p.rol_preferido.value ++ ")\n"

/-- The `/seleccionar` branch: no deduplication of submitted ids; the
5-player cap is checked against the number of submitted ids. -/
def cmdSeleccionar (w : Mundo) (partes : List String) (user_id sid : String)
    (sesion : Sesion) : Respuesta :=
  let disponible := sesion.pool_disponible_para user_id
  if disponible.isEmpty then
    ⟨["❌ No hay patabolistas disponibles para elegir (ya fueron seleccionados)."],
     none, w⟩
  else
    let ids := partes.drop 1
    if ids.isEmpty then
      ⟨["❌ Debes elegir al menos un patabolista.\nEjemplo: /s P1 P5 P8"], none, w⟩
    else if MAX_JUGADORES_EQUIPO < ids.length then
      ⟨["❌ Máximo " ++ toString MAX_JUGADORES_EQUIPO ++
        " jugadores por equipo.\nEjemplo: /s P1 P5 P8"], none, w⟩
    else
      let disponibles_ids := disponible.foldl
        (fun d i => dictSet d (normalizar_id_patabolista ((sesion.pool.getD i default).id)) i)
        []
      match resolver_ids_seleccion disponibles_ids ids with
      | .error e => ⟨[e], none, w⟩
      | .ok equipo =>
        match sesion.jugador_por_telefono user_id with
        | none => ⟨[], none, w⟩
        | some jugador_sesion =>
          let jugador2 :=
            { jugador_sesion with
              equipo := equipo, estado_equipo := EstadoEquipo.PENDIENTE_CONFIRMACION }
          let sesion2 :=
            ({ sesion with jugadores := dictSet sesion.jugadores user_id jugador2
             } : Sesion).actualizar_estado
          let mensaje :=
            "✅ Equipo (" ++ jugador2.nombre_equipo ++ ") seleccionado:\n" ++
            String.join (equipo.map (lineaSeleccion sesion2.pool)) ++
            sufijoSeleccion sesion2
          ⟨[mensaje], none, { w with sesiones := dictSet w.sesiones sid sesion2 }⟩

/-- The `/seleccionar_auto` branch (same draft rule as the scripted
opponent: one goalkeeper first when available, then random fill). -/
def cmdSeleccionarAuto (r : Rng) (w : Mundo) (user_id sid : String)
    (sesion : Sesion) : Respuesta :=
  let disponible := sesion.pool_disponible_para user_id
  if disponible.isEmpty then
    ⟨["❌ No hay patabolistas disponibles para elegir (ya fueron seleccionados)."],
     none, w⟩
  else
    let cantidad := min MAX_JUGADORES_EQUIPO disponible.length
    let porteros := disponible.filter
      (fun i => (sesion.pool.getD i default).rol_preferido == Rol.PORTERO)
    let paso1 :=
      if !porteros.isEmpty ∧ 0 < cantidad then
        let el := pyChoice r w.cnt porteros
        ([el.1], el.2)
      else (([] : List Nat), w.cnt)
    let candidatos := disponible.filter (fun i => !paso1.1.contains i)
    let faltan := cantidad - paso1.1.length
    let paso2 :=
      if 0 < faltan ∧ !candidatos.isEmpty then
        let m := pySample r paso1.2 candidatos (min faltan candidatos.length)
        (paso1.1 ++ m.1, m.2)
      else paso1
    if paso2.1.isEmpty then
      ⟨["❌ No se pudo armar el equipo automáticamente. Usa /pool y /seleccionar."],
       none, { w with cnt := paso2.2 }⟩
    else
      match sesion.jugador_por_telefono user_id with
      | none => ⟨[], none, { w with cnt := paso2.2 }⟩
      | some jugador_sesion =>
        let equipo := paso2.1
        let jugador2 :=
          { jugador_sesion with
            equipo := equipo, estado_equipo := EstadoEquipo.PENDIENTE_CONFIRMACION }
        let sesion2 :=
          ({ sesion with jugadores := dictSet sesion.jugadores user_id jugador2
           } : Sesion).actualizar_estado
        let mensaje :=
          "✅ Equipo (" ++ jugador2.nombre_equipo ++ ") seleccionado automáticamente:\n" ++
          String.join (equipo.map (lineaSeleccion sesion2.pool)) ++
          sufijoSeleccion sesion2
        ⟨[mensaje], none,
         { w with sesiones := dictSet w.sesiones sid sesion2, cnt := paso2.2 }⟩

/-- The `/quitar` branch. -/
def cmdQuitar (w : Mundo) (partes : List String) (user_id sid : String)
    (sesion : Sesion) : Respuesta :=
  if partes.length ≠ 2 then
    ⟨["❌ Uso: /quitar <id> o /q <id>\nEjemplo: /q P3\nDevuelve ese jugador al pool para elegir otro."],
     none, w⟩
  else
    let id_buscado := normalizar_id_patabolista (partes.getD 1 "")
    match sesion.jugador_por_telefono user_id with
    | none =>
      ⟨["❌ No tienes jugadores seleccionados. Usa /seleccionar o /seleccionar_auto."],
       none, w⟩
    | some jugador_sesion =>
      if jugador_sesion.equipo.isEmpty then
        ⟨["❌ No tienes jugadores seleccionados. Usa /seleccionar o /seleccionar_auto."],
         none, w⟩
      else
        let en_equipo := jugador_sesion.equipo.filter
          (fun i => normalizar_id_patabolista ((sesion.pool.getD i default).id) == id_buscado)
        if en_equipo.isEmpty then
          ⟨["❌ " ++ id_buscado ++ " no está en tu equipo. Tus jugadores: " ++
            String.intercalate ", "
              (jugador_sesion.equipo.map (fun i => (sesion.pool.getD i default).id))],
           none, w⟩
        else
          let jugador2 :=
            { jugador_sesion with
                equipo := jugador_sesion.equipo.filter (fun i =>
                  !(normalizar_id_patabolista ((sesion.pool.getD i default).id) == id_buscado)),
                estado_equipo := EstadoEquipo.PENDIENTE_CONFIRMACION }
          let sesion2 :=
            ({ sesion with jugadores := dictSet sesion.jugadores user_id jugador2
             } : Sesion).actualizar_estado
          let nombre_devuelto := (sesion.pool.getD (en_equipo.getD 0 0) default).nombre_con_id
          ⟨["✅ " ++ nombre_devuelto ++
            " devuelto al pool. Usa /pool para ver disponibles y /seleccionar para elegir otro."],
           none, { w with sesiones := dictSet w.sesiones sid sesion2 }⟩

/-- The `/equipo` branch. -/
def cmdEquipo (w : Mundo) (user_id : String) (sesion : Sesion) : Respuesta :=
  match sesion.jugador_por_telefono user_id with
  | none =>
    ⟨["❌ No tienes jugadores seleccionados aún. Usa /s o /a para elegir tu equipo."],
     none, w⟩
  | some jugador_sesion =>
    if jugador_sesion.equipo.isEmpty then
      ⟨["❌ No tienes jugadores seleccionados aún. Usa /s o /a para elegir tu equipo."],
       none, w⟩
    else
      let mensaje :=
        "👥 Tu equipo: " ++ jugador_sesion.nombre_equipo ++ "\n" ++ lineaSep ++ "\n\n" ++
        String.join (jugador_sesion.equipo.enum.map (fun ip =>
          let p := sesion.pool.getD ip.2 default
          toString (ip.1 + 1) ++ ". " ++ p.nombre_con_id ++ " (" ++
            p.rol_preferido.value ++ ")\n"))
      ⟨[mensaje], none, w⟩

/-- The `/confirmar` branch: marks the caller confirmed, lets the scripted
opponent draft if it is present with an empty roster, and returns the
ready-to-simulate signal exactly when `equipos_confirmados`. -/
def cmdConfirmar (r : Rng) (w : Mundo) (user_id sid : String) (sesion : Sesion) :
    Respuesta :=
  match sesion.jugador_por_telefono user_id with
  | none =>
    ⟨["❌ No tienes jugadores seleccionados. Usa /s o /a para elegir tu equipo."],
     none, w⟩
  | some jugador_sesion =>
    if jugador_sesion.equipo.isEmpty then
      ⟨["❌ No tienes jugadores seleccionados. Usa /s o /a para elegir tu equipo."],
       none, w⟩
    else if jugador_sesion.equipo_confirmado then
      ⟨["✅ Tu equipo ya está confirmado."], none, w⟩
    else
      let jugador2 := { jugador_sesion with estado_equipo := EstadoEquipo.CONFIRMADO }
      let sesionA : Sesion :=
        { sesion with jugadores := dictSet sesion.jugadores user_id jugador2 }
      let mensaje_config := mensaje_config_equipo sesionA.pool jugador2
      let trasBot :=
        match List.lookup BOT_NUMERO_TELEFONO sesionA.jugadores with
        | some bj =>
          if bj.equipo.isEmpty then seleccionar_equipo_bot_si_aplica r w.cnt sesionA
          else (sesionA, w.cnt)
        | none => (sesionA, w.cnt)
      let sesionB := trasBot.1
      let w1 := { w with sesiones := dictSet w.sesiones sid sesionB, cnt := trasBot.2 }
      if sesionB.equipos_confirmados then
        ⟨[mensaje_config, "🎮 Ambos equipos confirmados. ¡Iniciando partido!"],
         some sesionB, w1⟩
      else ⟨[mensaje_config], none, w1⟩

/-- The `/estadisticas` branch. -/
def cmdEstadisticas (w : Mundo) (sesion : Sesion) : Respuesta :=
  match sesion.ultimo_resultado with
  | none => ⟨["❌ No hay partido jugado aún en esta sesión."], none, w⟩
  | some resultado =>
    ⟨[formatear_resultado resultado sesion.ultimo_nombre_a sesion.ultimo_nombre_b,
      formatear_estadisticas sesion.ultimo_equipo_a sesion.ultimo_equipo_b
        sesion.ultimo_nombre_a sesion.ultimo_nombre_b], none, w⟩

/-- The alias-resolved command word: `cmd = ALIASES.get(cmd, cmd)` applied
to the lowercased first token. -/
def comandoResuelto (partes : List String) : String :=
  (List.lookup (pyLower (partes.getD 0 "")) ALIASES).getD (pyLower (partes.getD 0 ""))

/-- The command dispatch of `procesar_comando`, given the split parts and
the alias-resolved command word. -/
def despachar (r : Rng) (w : Mundo) (partes : List String) (user_id cmd : String) :
    Respuesta :=
  match obtener_sesion_de_usuario w user_id with
  | none =>
    if cmd = "/sesion" then cmdSesionNueva r w partes user_id
    else if cmd = "/unirse" then cmdUnirse r w partes user_id
    else ⟨[MENSAJE_NO_CONECTADO], none, w⟩
  | some ss =>
    if cmd = "/ayuda" ∨ cmd = "/help" then ⟨[MENSAJE_AYUDA], none, w⟩
    else if cmd = "/iniciar" then
      ⟨["Usa /sesion <nickname> [nombre_equipo] para crear una nueva sesión, o /u <código> <nickname> para unirte a una existente."],
       none, w⟩
    else if cmd = "/sesion" then
      ⟨["Actualmente estás en una sesión, debes salir con el comando /salir."], none, w⟩
    else if cmd = "/unirse" then
      if 2 ≤ partes.length ∧ pyLower (partes.getD 1 "") = "ia" then
        cmdUnirseIa r w partes user_id ss.2
      else ⟨["❌ Ya estás en una sesión. Usa /salir primero."], none, w⟩
    else if cmd = "/salir" then
      ⟨["✅ Has salido de la sesión."], none, salir_sesion w user_id⟩
    else if cmd = "/pool" then cmdPool r w partes ss.2
    else if cmd = "/detalle" then cmdDetalle w partes ss.2
    else if cmd = "/seleccionar" then cmdSeleccionar w partes user_id ss.1 ss.2
    else if cmd = "/seleccionar_auto" then cmdSeleccionarAuto r w user_id ss.1 ss.2
    else if cmd = "/quitar" then cmdQuitar w partes user_id ss.1 ss.2
    else if cmd = "/equipo" then cmdEquipo w user_id ss.2
    else if cmd = "/confirmar" then cmdConfirmar r w user_id ss.1 ss.2
    else if cmd = "/estadisticas" then cmdEstadisticas w ss.2
    else
      ⟨["❌ Comando no reconocido. Usa /ayuda o /h para ver comandos disponibles."],
       none, w⟩

/-- `procesar_comando` of `src/bot/core.py`. -/
def procesar_comando (r : Rng) (w : Mundo) (comando user_id : String) : Respuesta :=
  if (pySplitWs (pyStripStr comando)).isEmpty then
    ⟨["Comando no reconocido. Usa /ayuda o /h para ver comandos disponibles."], none, w⟩
  else
    despachar r w (pySplitWs (pyStripStr comando)) user_id
      (comandoResuelto (pySplitWs (pyStripStr comando)))

/-! ## Simulation runner (`src/bot/simulation.py`) -/

/-- View of the oracle streams starting at the given counters. -/
def rngDesde (r : Rng) (c : Cnt) : Rng :=
  ⟨fun i => r.floats (c.fi + i), fun i => r.picks (c.pi + i)⟩

/-- `ejecutar_simulacion_y_notificar` (notifications and pacing dropped):
runs the engine on the two rosters, stores the result and the post-match
rosters on the session, writes the post-match statistics back into the
pool (Python mutates the pool's objects in place), marks the session
simulated, and removes every human participant. -/
def ejecutar_simulacion_y_notificar (r : Rng) (w : Mundo) (sid : String) : Mundo :=
  match List.lookup sid w.sesiones with
  | none => w
  | some sesion =>
    if sesion.jugadores.length ≠ 2 then w
    else
      let jugador_a := (sesion.jugadores.getD 0 ("", default)).2
      let jugador_b := (sesion.jugadores.getD 1 ("", default)).2
      let equipo_a := sesion.delPool jugador_a.equipo
      let equipo_b := sesion.delPool jugador_b.equipo
      let rs := rngDesde r w.cnt
      let fin := estado_final rs equipo_a equipo_b
      let resultado := simular rs equipo_a equipo_b
      let pool2 :=
        (jugador_a.equipo.zip fin.equipo_a ++ jugador_b.equipo.zip fin.equipo_b).foldl
          (fun pl iv => pl.set iv.1 iv.2) sesion.pool
      let sesion2 : Sesion :=
        { sesion with
          pool := pool2, ultimo_resultado := some resultado,
          ultimo_equipo_a := fin.equipo_a, ultimo_equipo_b := fin.equipo_b,
          ultimo_nombre_a := jugador_a.nombre_equipo,
          ultimo_nombre_b := jugador_b.nombre_equipo }
      let w1 :=
        { w with
          sesiones := dictSet w.sesiones sid sesion2,
          cnt := ⟨w.cnt.fi + fin.fi, w.cnt.pi + fin.pi⟩ }
      let w2 := marcar_partido_simulado w1 sid
      let humanos :=
        [jugador_a.numero_telefono, jugador_b.numero_telefono].filter
          (fun n => n ≠ BOT_NUMERO_TELEFONO)
      humanos.foldl salir_sesion w2

/-! ## Concrete scenarios used by counterexamples and witnesses -/

/-- A concrete oracle: every float draw is 1/2, the `i`-th pick is
`i + i / 8`. This stream generates the session code `"ABCDEF"` and 15
pairwise-distinct display names without any resampling. -/
def rngTraza : Rng := ⟨fun _ => 1/2, fun i => i + i / 8⟩

/-- Trace step 1: user `A` creates a session (`/sesion Ana Reds`). Under
`rngTraza` the generated session code is `"ABCDEF"`. -/
def mundoT1 : Mundo := (procesar_comando rngTraza {} "/sesion Ana Reds" "A").mundo

/-- Trace step 2: the creator adds the scripted opponent (`/u ia`). -/
def mundoT2 : Mundo := (procesar_comando rngTraza mundoT1 "/u ia" "A").mundo

/-- Trace step 3: the human selects a roster (`/s P1 P3`). -/
def mundoT3 : Mundo := (procesar_comando rngTraza mundoT2 "/s P1 P3" "A").mundo

/-- Trace step 4: the human confirms; the scripted opponent auto-drafts and
both teams end up confirmed, so the ready-to-simulate signal is returned. -/
def respConfirma1 : Respuesta := procesar_comando rngTraza mundoT3 "/c" "A"

/-- Trace step 5: the simulation runner marks the session simulated. -/
def mundoT4 : Mundo := marcar_partido_simulado respConfirma1.mundo "ABCDEF"

/-- Trace step 6: the human re-selects a roster from their own players
(`/s P1`), which resets their confirmation to pending. -/
def mundoT5 : Mundo := (procesar_comando rngTraza mundoT4 "/s P1" "A").mundo

/-- Trace step 7: the human confirms again. -/
def respConfirma2 : Respuesta := procesar_comando rngTraza mundoT5 "/c" "A"

instance : Inhabited Sesion := ⟨{ session_id := "", pool := [] }⟩

/-- The session stored after the first signal-returning confirmation. -/
def sesionTrasSenal : Sesion :=
  (List.lookup "ABCDEF" respConfirma1.mundo.sesiones).getD default

/-- The human participant's record in that session. -/
def jugadorTrasSenalA : JugadorEnSesion :=
  (sesionTrasSenal.jugador_por_telefono "A").getD default

/-- The session value carried by the first signal. -/
def sesionSenalada : Sesion := respConfirma1.senal.getD default

/-- A second scenario: a lone creator submits the same id five times. -/
def respSeleccionDup : Respuesta :=
  procesar_comando rngTraza mundoT1 "/seleccionar P3 p3 P03 p003 P3" "A"

/-- A 1-goalkeeper roster with weak control and no flair, for the
empty-event-log counterexample. -/
def porteroDebil (idn nombre : String) : Patabolista :=
  { id := idn, nombre := nombre, rol_preferido := .PORTERO, control := 1,
    velocidad := 5, fuerza := 5, regate := 1, magia := 1 }

/-- An oracle on which every tick of a goalkeeper-only match is a failed
advance: floats are all 1/2, picks all 0. -/
def rngMitad : Rng := ⟨fun _ => 1/2, fun _ => 0⟩

/-- A midfielder with all attributes 5 and no flair. -/
def medioBase (idn nombre : String) : Patabolista :=
  { id := idn, nombre := nombre, rol_preferido := MEDIO, control := 5,
    velocidad := 5, fuerza := 5, regate := 5, magia := 1 }

/-- An oracle driving one pass tick: floats 1/2, picks all 1 (the two-way
action choice lands on `"lanzar_pelota"`, the receiver pick on index 1). -/
def rngPase : Rng := ⟨fun _ => 1/2, fun _ => 1⟩

/-- A concrete simulator state: team A has two average midfielders, the
first one holding the ball; team B has one. -/
def simPase : Sim :=
  { equipo_a := [medioBase "A1" "Ana Uno", medioBase "A2" "Ana Dos"],
    equipo_b := [medioBase "B1" "Bea Uno"],
    posesion_equipo_a := true, jugador_con_pelota := some (true, 0),
    goles_a := 0, goles_b := 0, eventos := [], fi := 0, pi := 0 }

/-- The local `sesion` value inside the `/confirmar` branch right after the
caller's confirmation is stored, before the scripted opponent drafts. -/
def sesion_tras_confirmacion (sesion : Sesion) (user_id : String)
    (j : JugadorEnSesion) : Sesion :=
  let j2 : JugadorEnSesion := { j with estado_equipo := EstadoEquipo.CONFIRMADO }
  { sesion with jugadores := dictSet sesion.jugadores user_id j2 }

/-- Every scripted-opponent roster in the store is empty. -/
def botSinEquipo (w : Mundo) : Prop :=
  ∀ p ∈ w.sesiones, ∀ q ∈ p.2.jugadores,
    q.1 = BOT_NUMERO_TELEFONO → q.2.equipo = []

/-- The concrete trace's session right after the human picked a roster. -/
def sesionT3 : Sesion := (List.lookup "ABCDEF" mundoT3.sesiones).getD default

/-- The human participant of `sesionT3`. -/
def jugadorT3 : JugadorEnSesion := (sesionT3.jugador_por_telefono "A").getD default

/-- The scripted opponent's entry in `sesionT3` (roster still empty). -/
def botT3 : JugadorEnSesion :=
  (List.lookup BOT_NUMERO_TELEFONO sesionT3.jugadores).getD default

/-! ## Claim C7: the shared success-probability helper -/

/-- Claim C7, counterexample: the claim's corollary "for every base B,
`successProb(5, B) = B`" fails at `B = 1`, where the 0.95 cap bites:
`successProb(5, 1) = 0.95 ≠ 1`. -/
theorem calcular_probabilidad_exito_base_uno :
    calcular_probabilidad_exito 5 1 = 95/100 ∧ calcular_probabilidad_exito 5 1 ≠ 1 := by
  constructor <;> norm_num [calcular_probabilidad_exito]

/-- Claim C7 (amended): `successProb(attribute, base)` is exactly
`min(0.95, base + (attribute - 5) * 0.1)`; for every base `B ≤ 0.95`,
`successProb(5, B) = B`; and `successProb(10, 0.5) = 0.95` (capped). -/
theorem calcular_probabilidad_exito_spec :
    (∀ (a : ℤ) (b : ℚ),
        calcular_probabilidad_exito a b = min (95/100 : ℚ) (b + (a - 5) * (1/10))) ∧
    (∀ b : ℚ, b ≤ 95/100 → calcular_probabilidad_exito 5 b = b) ∧
    calcular_probabilidad_exito 10 (1/2) = 95/100 := by
  refine ⟨fun a b => rfl, fun b hb => ?_, by norm_num [calcular_probabilidad_exito]⟩
  unfold calcular_probabilidad_exito
  have h5 : ((5 : ℤ) - 5 : ℚ) * (1/10 : ℚ) = 0 := by norm_num
  rw [show ((5 : ℤ) : ℚ) - 5 = 0 by norm_num]
  simpa using min_eq_right hb

/-- Claim C7, witness: the amended corollary applied at `B = 1/2`. -/
theorem calcular_probabilidad_exito_spec_witness :
    calcular_probabilidad_exito 5 (1/2) = 1/2 :=
  calcular_probabilidad_exito_spec.2.1 (1/2) (by norm_num)

/-! ## Claim C1: the ready-to-simulate signal and re-entry -/

/-- Claim C1, counterexample: in the concrete trace the signal fires for
session `"ABCDEF"` (step 4), the session is then marked `PARTIDO_SIMULADO`
(step 5), the human re-selects a roster (step 6) and confirms again
(step 7) — and the signal fires a second time for the same session,
although the session is in the Simulated state. -/
theorem senal_se_repite_tras_reseleccion :
    respConfirma1.senal.map (fun s => s.session_id) = some "ABCDEF" ∧
    (List.lookup "ABCDEF" mundoT4.sesiones).map (fun s => s.estado) =
      some EstadoSesion.PARTIDO_SIMULADO ∧
    respConfirma2.senal.map (fun s => s.session_id) = some "ABCDEF" := by
  decide!

/-- Claim C1 (amended): the guard against an immediate re-fire is the
participant's own Confirmed status, not the Simulated session state: a
`/confirmar` from a user whose player is already confirmed (with a
non-empty roster) returns only the already-confirmed message, no signal,
and leaves the module state unchanged. -/
theorem confirmar_ya_confirmado (r : Rng) (w : Mundo) (user sid : String)
    (s : Sesion) (hs : obtener_sesion_de_usuario w user = some (sid, s))
    (j : JugadorEnSesion) (hj : s.jugador_por_telefono user = some j)
    (hne : j.equipo ≠ []) (hconf : j.equipo_confirmado = true) :
    procesar_comando r w "/confirmar" user =
      ⟨["✅ Tu equipo ya está confirmado."], none, w⟩ := by
  have hd : procesar_comando r w "/confirmar" user =
      (match obtener_sesion_de_usuario w user with
       | none => ⟨[MENSAJE_NO_CONECTADO], none, w⟩
       | some ss => cmdConfirmar r w user ss.1 ss.2) := rfl
  rw [hd, hs]
  show cmdConfirmar r w user sid s = _
  simp only [cmdConfirmar, hj]
  rw [if_neg (by simp [List.isEmpty_eq_false.mpr hne]), if_pos hconf]

/-- Claim C1, witness: immediately after the signal-returning confirmation
of the concrete trace, a repeated `/confirmar` returns no signal. -/
theorem confirmar_ya_confirmado_witness :
    procesar_comando rngTraza respConfirma1.mundo "/confirmar" "A" =
      ⟨["✅ Tu equipo ya está confirmado."], none, respConfirma1.mundo⟩ :=
  confirmar_ya_confirmado rngTraza respConfirma1.mundo "A" "ABCDEF"
    sesionTrasSenal (by decide!) jugadorTrasSenalA (by decide!) (by decide!)
    (by decide!)

/-! ## Claim C10: roster selection does not deduplicate ids -/

/-- Claim C10: submitting five spellings of the same player id
(`/seleccionar P3 p3 P03 p003 P3`) succeeds and yields a roster of five
references to the single pool player `P3` (pool index 2) — the 5-player
cap counts submitted ids, not distinct players. -/
theorem seleccionar_no_deduplica :
    ((List.lookup "ABCDEF" respSeleccionDup.mundo.sesiones).bind
        (fun s => s.jugador_por_telefono "A")).map (fun j => j.equipo) =
      some [2, 2, 2, 2, 2] ∧
    (List.lookup "ABCDEF" respSeleccionDup.mundo.sesiones).map
        (fun s => (s.pool.getD 2 default).id) = some "P3" := by
  decide!

/-! ## Claim C6: pool generation role distribution -/

theorem roles_generar_pool_aux (r : Rng) :
    ∀ (roles : List Rol) (i : Nat) (usados : List String) (c : Cnt),
      ((generar_pool_aux r roles i usados c).1).map Patabolista.rol_preferido = roles := by
  intro roles
  induction roles with
  | nil => intro i usados c; rfl
  | cons rol resto ih =>
    intro i usados c
    simp only [generar_pool_aux, List.map_cons]
    rw [ih]

theorem reparto_delanteros {n : Nat} (h : 4 ≤ n) :
    max 1 (n / 8) + max 1 (n / 4) + max 1 (n / 3) + 1 ≤ n := by
  rcases Nat.lt_or_ge n 8 with h8 | h8
  · interval_cases n <;> decide
  · have h1 : 1 ≤ n / 8 := (Nat.one_le_div_iff (by norm_num)).mpr h8
    have h2 : 1 ≤ n / 4 := (Nat.one_le_div_iff (by norm_num)).mpr (by omega)
    have h3 : 1 ≤ n / 3 := (Nat.one_le_div_iff (by norm_num)).mpr (by omega)
    rw [Nat.max_eq_right h1, Nat.max_eq_right h2, Nat.max_eq_right h3]
    omega

theorem ajustar_distribucion_spec {n : Nat} (h4 : 4 ≤ n) :
    (ajustar_distribucion n).length = n ∧ ∀ rol : Rol, rol ∈ ajustar_distribucion n := by
  have hrep := reparto_delanteros h4
  have hp : 1 ≤ max 1 (n / 8) := le_max_left _ _
  have hd : 1 ≤ max 1 (n / 4) := le_max_left _ _
  have hm : 1 ≤ max 1 (n / 3) := le_max_left _ _
  unfold ajustar_distribucion
  have hlen :
      (List.replicate (max 1 (n / 8)) Rol.PORTERO ++
        List.replicate (max 1 (n / 4)) Rol.DEFENSA ++
        List.replicate (max 1 (n / 3)) MEDIO ++
        List.replicate (n - (max 1 (n / 8) + max 1 (n / 4) + max 1 (n / 3)))
          Rol.DELANTERO).length = n := by
    simp only [List.length_append, List.length_replicate]
    omega
  constructor
  · rw [List.take_of_length_le hlen.le, hlen]
  · intro rol
    rw [List.take_of_length_le hlen.le]
    cases rol <;> (simp [List.mem_append, List.mem_replicate]; try omega)

/-- Claim C6: for every count `n ≥ 4`, `generar_pool` succeeds with exactly
`n` players covering all four roles; for the smaller count 3 the forward
role is dropped. -/
theorem generar_pool_roles_spec :
    (∀ (r : Rng) (c : Cnt) (n : Nat), 4 ≤ n →
      (generar_pool r c n).1.length = n ∧
        ∀ rol : Rol, rol ∈ (generar_pool r c n).1.map Patabolista.rol_preferido) ∧
    (∀ (r : Rng) (c : Cnt),
      Rol.DELANTERO ∉ (generar_pool r c 3).1.map Patabolista.rol_preferido) := by
  constructor
  · intro r c n h4
    have hmap : (generar_pool r c n).1.map Patabolista.rol_preferido =
        (if n = 15 then roles_distribucion_base else ajustar_distribucion n).take n := by
      unfold generar_pool
      exact roles_generar_pool_aux r _ 0 [] c
    have hlenmap := congrArg List.length hmap
    rw [List.length_map] at hlenmap
    by_cases h15 : n = 15
    · subst h15
      rw [if_pos rfl] at hmap hlenmap
      refine ⟨by rw [hlenmap]; rfl, fun rol => ?_⟩
      rw [hmap]
      cases rol <;> decide
    · rw [if_neg h15] at hmap hlenmap
      obtain ⟨hal, har⟩ := ajustar_distribucion_spec h4
      rw [List.take_of_length_le hal.le] at hmap hlenmap
      exact ⟨by rw [hlenmap, hal], fun rol => by rw [hmap]; exact har rol⟩
  · intro r c
    have hmap : (generar_pool r c 3).1.map Patabolista.rol_preferido =
        (if 3 = 15 then roles_distribucion_base else ajustar_distribucion 3).take 3 := by
      unfold generar_pool
      exact roles_generar_pool_aux r _ 0 [] c
    rw [hmap]
    decide

/-- Claim C6, witness: the universal part applied at `n = 9`. -/
theorem generar_pool_roles_spec_witness :
    (generar_pool rngZero ⟨0, 0⟩ 9).1.length = 9 ∧
      ∀ rol : Rol, rol ∈ (generar_pool rngZero ⟨0, 0⟩ 9).1.map Patabolista.rol_preferido :=
  generar_pool_roles_spec.1 rngZero ⟨0, 0⟩ 9 (by norm_num)

/-! ## Simulator step lemmas -/

@[simp] theorem modificarJugador_eventos (s : Sim) (lado : Bool) (i : Nat)
    (f : Patabolista → Patabolista) : (modificarJugador s lado i f).eventos = s.eventos := by
  unfold modificarJugador
  split <;> rfl

@[simp] theorem modificarJugador_goles_a (s : Sim) (lado : Bool) (i : Nat)
    (f : Patabolista → Patabolista) : (modificarJugador s lado i f).goles_a = s.goles_a := by
  unfold modificarJugador
  split <;> rfl

@[simp] theorem modificarJugador_goles_b (s : Sim) (lado : Bool) (i : Nat)
    (f : Patabolista → Patabolista) : (modificarJugador s lado i f).goles_b = s.goles_b := by
  unfold modificarJugador
  split <;> rfl

@[simp] theorem modificarJugador_posesion (s : Sim) (lado : Bool) (i : Nat)
    (f : Patabolista → Patabolista) :
    (modificarJugador s lado i f).posesion_equipo_a = s.posesion_equipo_a := by
  unfold modificarJugador
  split <;> rfl

@[simp] theorem modificarJugador_pelota (s : Sim) (lado : Bool) (i : Nat)
    (f : Patabolista → Patabolista) :
    (modificarJugador s lado i f).jugador_con_pelota = s.jugador_con_pelota := by
  unfold modificarJugador
  split <;> rfl

@[simp] theorem modificarJugador_fi (s : Sim) (lado : Bool) (i : Nat)
    (f : Patabolista → Patabolista) : (modificarJugador s lado i f).fi = s.fi := by
  unfold modificarJugador
  split <;> rfl

@[simp] theorem modificarJugador_pi (s : Sim) (lado : Bool) (i : Nat)
    (f : Patabolista → Patabolista) : (modificarJugador s lado i f).pi = s.pi := by
  unfold modificarJugador
  split <;> rfl

@[simp] theorem randFloat_eventos (r : Rng) (s : Sim) :
    ((randFloat r s).2).eventos = s.eventos := rfl

@[simp] theorem randFloat_goles_a (r : Rng) (s : Sim) :
    ((randFloat r s).2).goles_a = s.goles_a := rfl

@[simp] theorem randFloat_goles_b (r : Rng) (s : Sim) :
    ((randFloat r s).2).goles_b = s.goles_b := rfl

@[simp] theorem randFloat_posesion (r : Rng) (s : Sim) :
    ((randFloat r s).2).posesion_equipo_a = s.posesion_equipo_a := rfl

@[simp] theorem randFloat_pelota (r : Rng) (s : Sim) :
    ((randFloat r s).2).jugador_con_pelota = s.jugador_con_pelota := rfl

@[simp] theorem randFloat_equipo_a (r : Rng) (s : Sim) :
    ((randFloat r s).2).equipo_a = s.equipo_a := rfl

@[simp] theorem randFloat_equipo_b (r : Rng) (s : Sim) :
    ((randFloat r s).2).equipo_b = s.equipo_b := rfl

@[simp] theorem randPick_eventos (r : Rng) (s : Sim) (n : Nat) :
    ((randPick r s n).2).eventos = s.eventos := rfl

@[simp] theorem randPick_goles_a (r : Rng) (s : Sim) (n : Nat) :
    ((randPick r s n).2).goles_a = s.goles_a := rfl

@[simp] theorem randPick_goles_b (r : Rng) (s : Sim) (n : Nat) :
    ((randPick r s n).2).goles_b = s.goles_b := rfl

@[simp] theorem randPick_posesion (r : Rng) (s : Sim) (n : Nat) :
    ((randPick r s n).2).posesion_equipo_a = s.posesion_equipo_a := rfl

@[simp] theorem randPick_pelota (r : Rng) (s : Sim) (n : Nat) :
    ((randPick r s n).2).jugador_con_pelota = s.jugador_con_pelota := rfl

@[simp] theorem randPick_equipo_a (r : Rng) (s : Sim) (n : Nat) :
    ((randPick r s n).2).equipo_a = s.equipo_a := rfl

@[simp] theorem randPick_equipo_b (r : Rng) (s : Sim) (n : Nat) :
    ((randPick r s n).2).equipo_b = s.equipo_b := rfl

@[simp] theorem asegurar_eventos (r : Rng) (s : Sim) :
    (asegurar_portador r s).eventos = s.eventos := by
  unfold asegurar_portador
  split <;> rfl

@[simp] theorem asegurar_goles_a (r : Rng) (s : Sim) :
    (asegurar_portador r s).goles_a = s.goles_a := by
  unfold asegurar_portador
  split <;> rfl

@[simp] theorem asegurar_goles_b (r : Rng) (s : Sim) :
    (asegurar_portador r s).goles_b = s.goles_b := by
  unfold asegurar_portador
  split <;> rfl

@[simp] theorem asegurar_posesion (r : Rng) (s : Sim) :
    (asegurar_portador r s).posesion_equipo_a = s.posesion_equipo_a := by
  unfold asegurar_portador
  split <;> rfl

@[simp] theorem asegurar_equipo_a (r : Rng) (s : Sim) :
    (asegurar_portador r s).equipo_a = s.equipo_a := by
  unfold asegurar_portador
  split <;> rfl

@[simp] theorem asegurar_equipo_b (r : Rng) (s : Sim) :
    (asegurar_portador r s).equipo_b = s.equipo_b := by
  unfold asegurar_portador
  split <;> rfl

@[simp] theorem seleccionar_accion_eventos (r : Rng) (s : Sim) (j : Patabolista) :
    ((seleccionar_accion r s j).2).eventos = s.eventos := by
  simp only [seleccionar_accion]
  repeat' split
  all_goals rfl

@[simp] theorem seleccionar_accion_goles_a (r : Rng) (s : Sim) (j : Patabolista) :
    ((seleccionar_accion r s j).2).goles_a = s.goles_a := by
  simp only [seleccionar_accion]
  repeat' split
  all_goals rfl

@[simp] theorem seleccionar_accion_goles_b (r : Rng) (s : Sim) (j : Patabolista) :
    ((seleccionar_accion r s j).2).goles_b = s.goles_b := by
  simp only [seleccionar_accion]
  repeat' split
  all_goals rfl

@[simp] theorem seleccionar_accion_posesion (r : Rng) (s : Sim) (j : Patabolista) :
    ((seleccionar_accion r s j).2).posesion_equipo_a = s.posesion_equipo_a := by
  simp only [seleccionar_accion]
  repeat' split
  all_goals rfl

@[simp] theorem seleccionar_accion_pelota (r : Rng) (s : Sim) (j : Patabolista) :
    ((seleccionar_accion r s j).2).jugador_con_pelota = s.jugador_con_pelota := by
  simp only [seleccionar_accion]
  repeat' split
  all_goals rfl

@[simp] theorem seleccionar_accion_equipo_a (r : Rng) (s : Sim) (j : Patabolista) :
    ((seleccionar_accion r s j).2).equipo_a = s.equipo_a := by
  simp only [seleccionar_accion]
  repeat' split
  all_goals rfl

@[simp] theorem seleccionar_accion_equipo_b (r : Rng) (s : Sim) (j : Patabolista) :
    ((seleccionar_accion r s j).2).equipo_b = s.equipo_b := by
  simp only [seleccionar_accion]
  repeat' split
  all_goals rfl

@[simp] theorem equipoDe_randFloat (r : Rng) (s : Sim) (lado : Bool) :
    equipoDe ((randFloat r s).2) lado = equipoDe s lado := by
  cases lado <;> rfl

@[simp] theorem equipoDe_randPick (r : Rng) (s : Sim) (n : Nat) (lado : Bool) :
    equipoDe ((randPick r s n).2) lado = equipoDe s lado := by
  cases lado <;> rfl

@[simp] theorem length_equipoDe_modificar (s : Sim) (lado : Bool) (i : Nat)
    (f : Patabolista → Patabolista) (lado' : Bool) :
    (equipoDe (modificarJugador s lado i f) lado').length =
      (equipoDe s lado').length := by
  unfold equipoDe modificarJugador
  cases lado <;> cases lado' <;> simp

@[simp] theorem randFloat_fst (r : Rng) (s : Sim) :
    (randFloat r s).1 = r.floats s.fi := rfl

@[simp] theorem randPick_fst (r : Rng) (s : Sim) (n : Nat) :
    (randPick r s n).1 = r.picks s.pi % n := rfl

@[simp] theorem randFloat_fi (r : Rng) (s : Sim) :
    ((randFloat r s).2).fi = s.fi + 1 := rfl

@[simp] theorem randFloat_pi (r : Rng) (s : Sim) :
    ((randFloat r s).2).pi = s.pi := rfl

@[simp] theorem randPick_fi (r : Rng) (s : Sim) (n : Nat) :
    ((randPick r s n).2).fi = s.fi := rfl

@[simp] theorem randPick_pi (r : Rng) (s : Sim) (n : Nat) :
    ((randPick r s n).2).pi = s.pi + 1 := rfl

@[simp] theorem jugadorEn_randFloat (r : Rng) (s : Sim) (lado : Bool) (i : Nat) :
    jugadorEn ((randFloat r s).2) lado i = jugadorEn s lado i := by
  cases lado <;> rfl

@[simp] theorem jugadorEn_randPick (r : Rng) (s : Sim) (n : Nat) (lado : Bool) (i : Nat) :
    jugadorEn ((randPick r s n).2) lado i = jugadorEn s lado i := by
  cases lado <;> rfl

@[simp] theorem equipoDe_asegurar (r : Rng) (s : Sim) (lado : Bool) :
    equipoDe (asegurar_portador r s) lado = equipoDe s lado := by
  unfold asegurar_portador
  split <;> (cases lado <;> rfl)

@[simp] theorem jugadorEn_asegurar (r : Rng) (s : Sim) (lado : Bool) (i : Nat) :
    jugadorEn (asegurar_portador r s) lado i = jugadorEn s lado i := by
  unfold asegurar_portador
  split <;> (cases lado <;> rfl)

@[simp] theorem equipoDe_seleccionar (r : Rng) (s : Sim) (j : Patabolista) (lado : Bool) :
    equipoDe ((seleccionar_accion r s j).2) lado = equipoDe s lado := by
  simp only [seleccionar_accion]
  repeat' split
  all_goals (cases lado <;> rfl)

@[simp] theorem jugadorEn_seleccionar (r : Rng) (s : Sim) (j : Patabolista)
    (lado : Bool) (i : Nat) :
    jugadorEn ((seleccionar_accion r s j).2) lado i = jugadorEn s lado i := by
  simp only [seleccionar_accion]
  repeat' split
  all_goals (cases lado <;> rfl)

@[simp] theorem jugadorEn_update (x : Sim) (pos : Bool) (hold : Option (Bool × Nat))
    (ga gb : ℤ) (ev : List Evento) (f p : Nat) (lado : Bool) (i : Nat) :
    jugadorEn (⟨x.equipo_a, x.equipo_b, pos, hold, ga, gb, ev, f, p⟩ : Sim) lado i =
      jugadorEn x lado i := by
  cases lado <;> rfl

@[simp] theorem equipoDe_update (x : Sim) (pos : Bool) (hold : Option (Bool × Nat))
    (ga gb : ℤ) (ev : List Evento) (f p : Nat) (lado : Bool) :
    equipoDe (⟨x.equipo_a, x.equipo_b, pos, hold, ga, gb, ev, f, p⟩ : Sim) lado =
      equipoDe x lado := by
  cases lado <;> rfl

theorem jugadorEn_modificar_mismo (s : Sim) (lado : Bool) (i : Nat)
    (f : Patabolista → Patabolista) (hi : i < (equipoDe s lado).length) :
    jugadorEn (modificarJugador s lado i f) lado i = f (jugadorEn s lado i) := by
  unfold jugadorEn equipoDe modificarJugador at *
  cases lado <;>
    simp_all [List.getD_eq_getElem?_getD, List.getElem?_set_self]

theorem jugadorEn_modificar_otro (s : Sim) (lado : Bool) (i : Nat)
    (f : Patabolista → Patabolista) (lado' : Bool) (i' : Nat)
    (h : lado = lado' → i ≠ i') :
    jugadorEn (modificarJugador s lado i f) lado' i' = jugadorEn s lado' i' := by
  unfold jugadorEn equipoDe modificarJugador
  cases lado <;> cases lado' <;>
    first
      | rfl
      | (have hne : i ≠ i' := h rfl
         simp [List.getD_eq_getElem?_getD, List.getElem?_set_ne, hne])

/-- Per tick, each action branch appends at most one event, stamped with
the tick's minute, and never decreases either score. -/
theorem paso_avanzar_minutos (r : Rng) (s : Sim) (lado : Bool) (i minuto seg : Nat) :
    ((paso_avanzar r s lado i minuto seg).eventos.map Evento.minuto =
        s.eventos.map Evento.minuto ∨
      (paso_avanzar r s lado i minuto seg).eventos.map Evento.minuto =
        s.eventos.map Evento.minuto ++ [minuto]) ∧
    s.goles_a ≤ (paso_avanzar r s lado i minuto seg).goles_a ∧
    s.goles_b ≤ (paso_avanzar r s lado i minuto seg).goles_b := by
  simp only [paso_avanzar]
  split
  · exact ⟨Or.inr (by simp), by simp, by simp⟩
  · exact ⟨Or.inl (by simp), by simp, by simp⟩

theorem paso_lanzar_minutos (r : Rng) (s : Sim) (lado : Bool) (i minuto seg : Nat) :
    ((paso_lanzar r s lado i minuto seg).eventos.map Evento.minuto =
        s.eventos.map Evento.minuto ∨
      (paso_lanzar r s lado i minuto seg).eventos.map Evento.minuto =
        s.eventos.map Evento.minuto ++ [minuto]) ∧
    s.goles_a ≤ (paso_lanzar r s lado i minuto seg).goles_a ∧
    s.goles_b ≤ (paso_lanzar r s lado i minuto seg).goles_b := by
  simp only [paso_lanzar]
  split
  · exact ⟨Or.inr (by simp), by simp, by simp⟩
  · exact ⟨Or.inl (by simp), by simp, by simp⟩

theorem paso_quitar_minutos (r : Rng) (s : Sim) (lado : Bool) (i minuto seg : Nat) :
    ((paso_quitar r s lado i minuto seg).eventos.map Evento.minuto =
        s.eventos.map Evento.minuto ∨
      (paso_quitar r s lado i minuto seg).eventos.map Evento.minuto =
        s.eventos.map Evento.minuto ++ [minuto]) ∧
    s.goles_a ≤ (paso_quitar r s lado i minuto seg).goles_a ∧
    s.goles_b ≤ (paso_quitar r s lado i minuto seg).goles_b := by
  simp only [paso_quitar]
  split
  · exact ⟨Or.inr (by simp), by simp, by simp⟩
  · split
    · exact ⟨Or.inr (by simp), by simp, by simp⟩
    · exact ⟨Or.inr (by simp), by simp, by simp⟩

theorem paso_gol_minutos (r : Rng) (s : Sim) (lado : Bool) (i minuto seg : Nat) :
    ((paso_gol r s lado i minuto seg).eventos.map Evento.minuto =
        s.eventos.map Evento.minuto ∨
      (paso_gol r s lado i minuto seg).eventos.map Evento.minuto =
        s.eventos.map Evento.minuto ++ [minuto]) ∧
    s.goles_a ≤ (paso_gol r s lado i minuto seg).goles_a ∧
    s.goles_b ≤ (paso_gol r s lado i minuto seg).goles_b := by
  simp only [paso_gol]
  split
  · split
    · split
      · exact ⟨Or.inr (by simp), by simp, by simp⟩
      · exact ⟨Or.inr (by simp), by simp, by simp⟩
    · exact ⟨Or.inr (by simp), by simp, by simp⟩
  · exact ⟨Or.inl rfl, le_refl _, le_refl _⟩

/-- One tick of `_procesar_estado`: at most one event is appended, stamped
with the tick's minute `(estado * 10) / 60`, and the scores never
decrease. -/
theorem procesar_estado_minutos (r : Rng) (s : Sim) (e : Nat) :
    ((procesar_estado r s e).eventos.map Evento.minuto =
        s.eventos.map Evento.minuto ∨
      (procesar_estado r s e).eventos.map Evento.minuto =
        s.eventos.map Evento.minuto ++ [e * 10 / 60]) ∧
    s.goles_a ≤ (procesar_estado r s e).goles_a ∧
    s.goles_b ≤ (procesar_estado r s e).goles_b := by
  simp only [procesar_estado]
  split
  · exact ⟨Or.inl (by simp), by simp, by simp⟩
  · rename_i li heq
    split
    · have h := paso_avanzar_minutos r
        (seleccionar_accion r (asegurar_portador r s)
          (jugadorEn (asegurar_portador r s) li.1 li.2)).2 li.1 li.2
        (e * 10 / 60) (e * 10 % 60)
      simpa using h
    · split
      · have h := paso_lanzar_minutos r
          (seleccionar_accion r (asegurar_portador r s)
            (jugadorEn (asegurar_portador r s) li.1 li.2)).2 li.1 li.2
          (e * 10 / 60) (e * 10 % 60)
        simpa using h
      · split
        · have h := paso_quitar_minutos r
            (seleccionar_accion r (asegurar_portador r s)
              (jugadorEn (asegurar_portador r s) li.1 li.2)).2 li.1 li.2
            (e * 10 / 60) (e * 10 % 60)
          simpa using h
        · have h := paso_gol_minutos r
            (seleccionar_accion r (asegurar_portador r s)
              (jugadorEn (asegurar_portador r s) li.1 li.2)).2 li.1 li.2
            (e * 10 / 60) (e * 10 % 60)
          simpa using h

theorem sim_parcial_succ (r : Rng) (A B : List Patabolista) (k : Nat) :
    sim_parcial r A B (k + 1) = procesar_estado r (sim_parcial r A B k) k := by
  unfold sim_parcial
  rw [List.range_succ, List.foldl_append]
  rfl

theorem sim_parcial_zero_eventos (r : Rng) (A B : List Patabolista) :
    (sim_parcial r A B 0).eventos = [] := rfl

theorem sim_parcial_zero_goles_a (r : Rng) (A B : List Patabolista) :
    (sim_parcial r A B 0).goles_a = 0 := rfl

theorem sim_parcial_zero_goles_b (r : Rng) (A B : List Patabolista) :
    (sim_parcial r A B 0).goles_b = 0 := rfl

/-- Invariant of the tick loop: after `k` ticks both scores are
non-negative, at most `k` events were logged, their minutes are
non-decreasing, and every minute is at most the last tick's minute. -/
theorem sim_parcial_invariante (r : Rng) (A B : List Patabolista) (k : Nat) :
    0 ≤ (sim_parcial r A B k).goles_a ∧ 0 ≤ (sim_parcial r A B k).goles_b ∧
    (sim_parcial r A B k).eventos.length ≤ k ∧
    List.Chain' (fun m n => m ≤ n)
      ((sim_parcial r A B k).eventos.map Evento.minuto) ∧
    ∀ m ∈ (sim_parcial r A B k).eventos.map Evento.minuto,
      m ≤ (k - 1) * 10 / 60 := by
  induction k with
  | zero =>
      rw [sim_parcial_zero_goles_a, sim_parcial_zero_goles_b, sim_parcial_zero_eventos]
      exact ⟨le_refl 0, le_refl 0, by simp, by simp, by simp⟩
  | succ k ih =>
      obtain ⟨hga, hgb, hlen, hchain, hbound⟩ := ih
      rw [sim_parcial_succ]
      obtain ⟨hm, hga2, hgb2⟩ := procesar_estado_minutos r (sim_parcial r A B k) k
      refine ⟨le_trans hga hga2, le_trans hgb hgb2, ?_, ?_, ?_⟩
      · rcases hm with hm | hm
        · have h2 := congrArg List.length hm
          simp only [List.length_map] at h2
          omega
        · have h2 := congrArg List.length hm
          simp only [List.length_map, List.length_append, List.length_cons,
            List.length_nil] at h2
          omega
      · rcases hm with hm | hm
        · rw [hm]
          exact hchain
        · rw [hm]
          refine List.Chain'.append hchain (List.chain'_singleton _) ?_
          intro x hx y hy
          simp only [List.head?_cons, Option.mem_def, Option.some.injEq] at hy
          have hxm : x ∈ (sim_parcial r A B k).eventos.map Evento.minuto :=
            List.mem_of_mem_getLast? hx
          have hb := hbound x hxm
          omega
      · intro m hm2
        rcases hm with hm | hm
        · rw [hm] at hm2
          have hb := hbound m hm2
          omega
        · rw [hm] at hm2
          rcases List.mem_append.mp hm2 with h | h
          · have hb := hbound m h
            omega
          · simp only [List.mem_singleton] at h
            omega

/-! ## Claim C4: the pass branch -/

/-- Dispatch: when the drawn holder's selected action is `"lanzar_pelota"`,
the tick is exactly `paso_lanzar` applied to the post-selection state. -/
theorem procesar_estado_lanzar (r : Rng) (s : Sim) (e : Nat) (li : Bool × Nat)
    (h1 : (asegurar_portador r s).jugador_con_pelota = some li)
    (h2 : (seleccionar_accion r (asegurar_portador r s)
        (jugadorEn (asegurar_portador r s) li.1 li.2)).1 = "lanzar_pelota") :
    procesar_estado r s e =
      paso_lanzar r
        (seleccionar_accion r (asegurar_portador r s)
          (jugadorEn (asegurar_portador r s) li.1 li.2)).2
        li.1 li.2 (e * 10 / 60) (e * 10 % 60) := by
  simp only [procesar_estado]
  split
  · rename_i hnone
    rw [h1] at hnone
    exact Option.noConfusion hnone
  · rename_i li' heq
    rw [h1] at heq
    obtain rfl : li = li' := Option.some.inj heq
    rw [if_neg (by rw [h2]; decide), if_pos h2]

/-- Full characterization of `paso_lanzar` on any state whose (side, index)
reference and possessing roster are valid. -/
theorem paso_lanzar_caract (r : Rng) (s : Sim) (lado : Bool) (i minuto seg : Nat)
    (hi : i < (equipoDe s lado).length)
    (hpos : 0 < (equipoDe s s.posesion_equipo_a).length) :
    (¬ r.floats s.fi < (aplicar_magia
        { jugadorEn s lado i with
            toques := (jugadorEn s lado i).toques + 1,
            pases := (jugadorEn s lado i).pases + 1 }
        (calcular_probabilidad_exito (jugadorEn s lado i).control (7/10))).1 →
      (paso_lanzar r s lado i minuto seg).posesion_equipo_a = !s.posesion_equipo_a ∧
      (paso_lanzar r s lado i minuto seg).jugador_con_pelota = none ∧
      (paso_lanzar r s lado i minuto seg).eventos = s.eventos ∧
      jugadorEn (paso_lanzar r s lado i minuto seg) lado i =
        { jugadorEn s lado i with
            toques := (jugadorEn s lado i).toques + 1,
            pases := (jugadorEn s lado i).pases + 1 }) ∧
    (r.floats s.fi < (aplicar_magia
        { jugadorEn s lado i with
            toques := (jugadorEn s lado i).toques + 1,
            pases := (jugadorEn s lado i).pases + 1 }
        (calcular_probabilidad_exito (jugadorEn s lado i).control (7/10))).1 →
      (paso_lanzar r s lado i minuto seg).posesion_equipo_a = s.posesion_equipo_a ∧
      (paso_lanzar r s lado i minuto seg).jugador_con_pelota =
        some (s.posesion_equipo_a,
          r.picks s.pi % (equipoDe s s.posesion_equipo_a).length) ∧
      (∃ d, (paso_lanzar r s lado i minuto seg).eventos =
        s.eventos ++ [⟨minuto, seg, d, "pase"⟩]) ∧
      r.picks s.pi % (equipoDe s s.posesion_equipo_a).length <
        (equipoDe s s.posesion_equipo_a).length ∧
      ((s.posesion_equipo_a = lado ∧
          r.picks s.pi % (equipoDe s s.posesion_equipo_a).length = i) →
        jugadorEn (paso_lanzar r s lado i minuto seg) lado i =
          { jugadorEn s lado i with
              toques := (jugadorEn s lado i).toques + 2,
              pases := (jugadorEn s lado i).pases + 2 }) ∧
      (¬ (s.posesion_equipo_a = lado ∧
          r.picks s.pi % (equipoDe s s.posesion_equipo_a).length = i) →
        jugadorEn (paso_lanzar r s lado i minuto seg) lado i =
          { jugadorEn s lado i with
              toques := (jugadorEn s lado i).toques + 1,
              pases := (jugadorEn s lado i).pases + 2 } ∧
        jugadorEn (paso_lanzar r s lado i minuto seg) s.posesion_equipo_a
            (r.picks s.pi % (equipoDe s s.posesion_equipo_a).length) =
          { jugadorEn s s.posesion_equipo_a
              (r.picks s.pi % (equipoDe s s.posesion_equipo_a).length) with
              toques := (jugadorEn s s.posesion_equipo_a
                (r.picks s.pi % (equipoDe s s.posesion_equipo_a).length)).toques + 1 })) := by
  have hj : jugadorEn (modificarJugador s lado i
      (fun p => { p with toques := p.toques + 1, pases := p.pases + 1 })) lado i =
      { jugadorEn s lado i with
          toques := (jugadorEn s lado i).toques + 1,
          pases := (jugadorEn s lado i).pases + 1 } :=
    jugadorEn_modificar_mismo s lado i _ hi
  constructor
  · intro hx
    simp only [paso_lanzar, randFloat_fst, modificarJugador_fi, hj]
    rw [if_neg hx]
    exact ⟨by simp, by simp, by simp, by simp [hj]⟩
  · intro hx
    simp only [paso_lanzar, randFloat_fst, modificarJugador_fi, hj]
    rw [if_pos hx]
    refine ⟨by simp, by simp, ?_, Nat.mod_lt _ hpos, ?_, ?_⟩
    · simp
    · rintro ⟨hl, hc⟩
      rw [hl] at hc
      simp only [jugadorEn_update, randPick_fst, modificarJugador_pi,
        randFloat_posesion, modificarJugador_posesion, randFloat_pi,
        equipoDe_randFloat, length_equipoDe_modificar, hl, hc]
      rw [jugadorEn_modificar_mismo, jugadorEn_modificar_mismo]
      · simp [hj]
        omega
      · simpa using hi
      · simpa using hi
    · intro hne
      constructor
      · simp only [jugadorEn_update, randPick_fst, modificarJugador_pi,
          randFloat_posesion, modificarJugador_posesion, randFloat_pi,
          equipoDe_randFloat, length_equipoDe_modificar]
        rw [jugadorEn_modificar_otro, jugadorEn_modificar_mismo]
        · simp [hj]
          omega
        · simpa using hi
        · intro hl hc
          exact hne ⟨hl, hc⟩
      · simp only [jugadorEn_update, randPick_fst, modificarJugador_pi,
          randFloat_posesion, modificarJugador_posesion, randFloat_pi,
          equipoDe_randFloat, length_equipoDe_modificar]
        rw [jugadorEn_modificar_mismo, jugadorEn_modificar_otro]
        · simp only [jugadorEn_randPick, jugadorEn_randFloat]
          rw [jugadorEn_modificar_otro]
          intro hl hc
          exact hne ⟨hl.symm, hc.symm⟩
        · intro hl hc
          exact hne ⟨hl.symm, hc.symm⟩
        · simp only [length_equipoDe_modificar, equipoDe_randFloat,
            equipoDe_randPick]
          exact Nat.mod_lt _ hpos

/-- Claim C4: the pass tick. On success the receiver is drawn from the
ENTIRE possessing roster (possibly the passer), the receiver is credited a
touch, the passer a touch and TWO passes (`_lanzar_pelota` credits one up
front and the success branch a second), the ball moves to the receiver, and
a pass event is logged. On failure possession flips, the holder clears, no
event is logged, and the passer still keeps one touch and one pass. -/
theorem procesar_estado_pase_spec (r : Rng) (s : Sim) (e : Nat) (li : Bool × Nat)
    (s1 : Sim)
    (h1 : (asegurar_portador r s).jugador_con_pelota = some li)
    (h2 : (seleccionar_accion r (asegurar_portador r s)
        (jugadorEn (asegurar_portador r s) li.1 li.2)).1 = "lanzar_pelota")
    (hs1 : s1 = (seleccionar_accion r (asegurar_portador r s)
        (jugadorEn (asegurar_portador r s) li.1 li.2)).2)
    (hi : li.2 < (equipoDe s li.1).length)
    (hpos : 0 < (equipoDe s s.posesion_equipo_a).length) :
    (¬ r.floats s1.fi < (aplicar_magia
        { jugadorEn s li.1 li.2 with
            toques := (jugadorEn s li.1 li.2).toques + 1,
            pases := (jugadorEn s li.1 li.2).pases + 1 }
        (calcular_probabilidad_exito (jugadorEn s li.1 li.2).control (7/10))).1 →
      (procesar_estado r s e).posesion_equipo_a = !s.posesion_equipo_a ∧
      (procesar_estado r s e).jugador_con_pelota = none ∧
      (procesar_estado r s e).eventos = s.eventos ∧
      jugadorEn (procesar_estado r s e) li.1 li.2 =
        { jugadorEn s li.1 li.2 with
            toques := (jugadorEn s li.1 li.2).toques + 1,
            pases := (jugadorEn s li.1 li.2).pases + 1 }) ∧
    (r.floats s1.fi < (aplicar_magia
        { jugadorEn s li.1 li.2 with
            toques := (jugadorEn s li.1 li.2).toques + 1,
            pases := (jugadorEn s li.1 li.2).pases + 1 }
        (calcular_probabilidad_exito (jugadorEn s li.1 li.2).control (7/10))).1 →
      (procesar_estado r s e).posesion_equipo_a = s.posesion_equipo_a ∧
      (procesar_estado r s e).jugador_con_pelota =
        some (s.posesion_equipo_a,
          r.picks s1.pi % (equipoDe s s.posesion_equipo_a).length) ∧
      (∃ d, (procesar_estado r s e).eventos =
        s.eventos ++ [⟨e * 10 / 60, e * 10 % 60, d, "pase"⟩]) ∧
      r.picks s1.pi % (equipoDe s s.posesion_equipo_a).length <
        (equipoDe s s.posesion_equipo_a).length ∧
      ((s.posesion_equipo_a = li.1 ∧
          r.picks s1.pi % (equipoDe s s.posesion_equipo_a).length = li.2) →
        jugadorEn (procesar_estado r s e) li.1 li.2 =
          { jugadorEn s li.1 li.2 with
              toques := (jugadorEn s li.1 li.2).toques + 2,
              pases := (jugadorEn s li.1 li.2).pases + 2 }) ∧
      (¬ (s.posesion_equipo_a = li.1 ∧
          r.picks s1.pi % (equipoDe s s.posesion_equipo_a).length = li.2) →
        jugadorEn (procesar_estado r s e) li.1 li.2 =
          { jugadorEn s li.1 li.2 with
              toques := (jugadorEn s li.1 li.2).toques + 1,
              pases := (jugadorEn s li.1 li.2).pases + 2 } ∧
        jugadorEn (procesar_estado r s e) s.posesion_equipo_a
            (r.picks s1.pi % (equipoDe s s.posesion_equipo_a).length) =
          { jugadorEn s s.posesion_equipo_a
              (r.picks s1.pi % (equipoDe s s.posesion_equipo_a).length) with
              toques := (jugadorEn s s.posesion_equipo_a
                (r.picks s1.pi % (equipoDe s s.posesion_equipo_a).length)).toques +
                  1 })) := by
  subst hs1
  rw [procesar_estado_lanzar r s e li h1 h2]
  have hi' : li.2 <
      (equipoDe (seleccionar_accion r (asegurar_portador r s)
        (jugadorEn (asegurar_portador r s) li.1 li.2)).2 li.1).length := by
    simpa using hi
  have hpos' : 0 <
      (equipoDe (seleccionar_accion r (asegurar_portador r s)
          (jugadorEn (asegurar_portador r s) li.1 li.2)).2
        (seleccionar_accion r (asegurar_portador r s)
          (jugadorEn (asegurar_portador r s) li.1 li.2)).2.posesion_equipo_a).length := by
    simpa using hpos
  obtain ⟨hfail, hsucc⟩ := paso_lanzar_caract r
    (seleccionar_accion r (asegurar_portador r s)
      (jugadorEn (asegurar_portador r s) li.1 li.2)).2
    li.1 li.2 (e * 10 / 60) (e * 10 % 60) hi' hpos'
  constructor
  · intro hx
    have h := hfail (by simpa using hx)
    simpa using h
  · intro hx
    have h := hsucc (by simpa using hx)
    simpa using h

/-- Claim C4, counterexample: in a concrete successful pass tick the passer
ends with TWO passes, not the one pass the claim promises. -/
theorem pase_doble_credito :
    ((procesar_estado rngPase simPase 0).equipo_a.getD 0 default).pases = 2 ∧
    (procesar_estado rngPase simPase 0).eventos.map Evento.tipo = ["pase"] ∧
    (procesar_estado rngPase simPase 0).jugador_con_pelota = some (true, 1) := by
  refine ⟨?_, ?_, ?_⟩
  · decide!
  · decide!
  · decide!

/-- Claim C4, witness: the amended pass-tick theorem applied to the
concrete state `simPase` under the stream `rngPase`. -/
theorem procesar_estado_pase_spec_witness :
    (procesar_estado rngPase simPase 0).posesion_equipo_a =
      simPase.posesion_equipo_a ∧
    jugadorEn (procesar_estado rngPase simPase 0) true 0 =
      { jugadorEn simPase true 0 with
          toques := (jugadorEn simPase true 0).toques + 1,
          pases := (jugadorEn simPase true 0).pases + 2 } := by
  obtain ⟨-, hsucc⟩ := procesar_estado_pase_spec rngPase simPase 0 (true, 0)
    ((seleccionar_accion rngPase (asegurar_portador rngPase simPase)
      (jugadorEn (asegurar_portador rngPase simPase) true 0)).2)
    (by decide!) (by decide!) rfl (by decide!) (by decide!)
  obtain ⟨hpos, -, -, -, -, hne⟩ := hsucc (by decide!)
  have hcase : ¬ (simPase.posesion_equipo_a = (true, 0).1 ∧
      rngPase.picks (seleccionar_accion rngPase (asegurar_portador rngPase simPase)
          (jugadorEn (asegurar_portador rngPase simPase) true 0)).2.pi %
        (equipoDe simPase simPase.posesion_equipo_a).length = (true, 0).2) := by
    decide!
  exact ⟨hpos, (hne hcase).1⟩

/-! ## Claim C5: 30 ticks, non-negative scores, event-log shape -/

/-- Claim C5, counterexample: with 1-goalkeeper rosters the event log can be
EMPTY — on the all-1/2 oracle every tick picks `avanzar_con_pelota` for the
weak goalkeeper, the success roll `1/2 < min(0.95, 0.7 + (1-5)*0.1) = 0.3`
fails, and the failure branch of `_avanzar_con_pelota` logs nothing, so all
30 ticks log nothing. The claim's "non-empty event log" is false. -/
theorem simular_eventos_vacios :
    (simular rngMitad [porteroDebil "K1" "Kala Uno"]
        [porteroDebil "K2" "Kala Dos"]).eventos = [] ∧
      (simular rngMitad [porteroDebil "K1" "Kala Uno"]
        [porteroDebil "K2" "Kala Dos"]).goles_equipo_a = 0 := by
  constructor
  · decide!
  · decide!

/-- Claim C5 (amended): for every pair of non-empty rosters and every
random stream, `simular` runs the loop for exactly `TOTAL_ESTADOS = 30`
ticks and returns a result whose two scores are non-negative, whose event
log has at most 30 events (but may be empty), and whose minutes are
non-decreasing. -/
theorem simular_spec (r : Rng) (A B : List Patabolista)
    (hA : A ≠ []) (hB : B ≠ []) :
    simular r A B =
      (let fin := sim_parcial r A B TOTAL_ESTADOS
       { goles_equipo_a := fin.goles_a, goles_equipo_b := fin.goles_b,
         eventos := fin.eventos,
         estadisticas_equipo_a :=
           fin.equipo_a.map (fun j => (j.id, j.obtener_estadisticas)),
         estadisticas_equipo_b :=
           fin.equipo_b.map (fun j => (j.id, j.obtener_estadisticas)),
         jugador_del_partido :=
           pyMax mvp_valor (fin.equipo_a ++ fin.equipo_b) }) ∧
    0 ≤ (simular r A B).goles_equipo_a ∧ 0 ≤ (simular r A B).goles_equipo_b ∧
    (simular r A B).eventos.length ≤ TOTAL_ESTADOS ∧
    List.Chain' (fun m n => m ≤ n)
      ((simular r A B).eventos.map Evento.minuto) := by
  obtain ⟨hga, hgb, hlen, hchain, _⟩ := sim_parcial_invariante r A B TOTAL_ESTADOS
  exact ⟨rfl, hga, hgb, hlen, hchain⟩

/-- Claim C5, witness: the amended theorem applied to the two 1-goalkeeper
rosters and a concrete stream. -/
theorem simular_spec_witness :
    0 ≤ (simular rngMitad [porteroDebil "K1" "Kala Uno"]
        [porteroDebil "K2" "Kala Dos"]).goles_equipo_a ∧
    List.Chain' (fun m n => m ≤ n)
      ((simular rngMitad [porteroDebil "K1" "Kala Uno"]
          [porteroDebil "K2" "Kala Dos"]).eventos.map Evento.minuto) := by
  obtain ⟨_, hga, _, _, hchain⟩ :=
    simular_spec rngMitad [porteroDebil "K1" "Kala Uno"]
      [porteroDebil "K2" "Kala Dos"] (by decide) (by decide)
  exact ⟨hga, hchain⟩

/-! ## Claim C8: the most-valuable-player rule -/

@[simp] theorem length_equipoDe_paso_avanzar (r : Rng) (s : Sim) (lado : Bool)
    (i minuto seg : Nat) (lado' : Bool) :
    (equipoDe (paso_avanzar r s lado i minuto seg) lado').length =
      (equipoDe s lado').length := by
  simp only [paso_avanzar]
  split <;> simp

@[simp] theorem length_equipoDe_paso_lanzar (r : Rng) (s : Sim) (lado : Bool)
    (i minuto seg : Nat) (lado' : Bool) :
    (equipoDe (paso_lanzar r s lado i minuto seg) lado').length =
      (equipoDe s lado').length := by
  simp only [paso_lanzar]
  split <;> simp

@[simp] theorem length_equipoDe_paso_quitar (r : Rng) (s : Sim) (lado : Bool)
    (i minuto seg : Nat) (lado' : Bool) :
    (equipoDe (paso_quitar r s lado i minuto seg) lado').length =
      (equipoDe s lado').length := by
  simp only [paso_quitar]
  repeat' split
  all_goals simp

@[simp] theorem length_equipoDe_paso_gol (r : Rng) (s : Sim) (lado : Bool)
    (i minuto seg : Nat) (lado' : Bool) :
    (equipoDe (paso_gol r s lado i minuto seg) lado').length =
      (equipoDe s lado').length := by
  simp only [paso_gol]
  repeat' split
  all_goals simp

@[simp] theorem length_equipo_procesar (r : Rng) (s : Sim) (e : Nat) (lado : Bool) :
    (equipoDe (procesar_estado r s e) lado).length = (equipoDe s lado).length := by
  simp only [procesar_estado]
  repeat' split
  all_goals simp

theorem length_sim_parcial_a (r : Rng) (A B : List Patabolista) (k : Nat) :
    (sim_parcial r A B k).equipo_a.length = A.length := by
  induction k with
  | zero => simp [sim_parcial, sim_inicial]
  | succ k ih =>
      rw [sim_parcial_succ]
      have h := length_equipo_procesar r (sim_parcial r A B k) k true
      simp [equipoDe] at h
      rw [h, ih]

theorem length_sim_parcial_b (r : Rng) (A B : List Patabolista) (k : Nat) :
    (sim_parcial r A B k).equipo_b.length = B.length := by
  induction k with
  | zero => simp [sim_parcial, sim_inicial]
  | succ k ih =>
      rw [sim_parcial_succ]
      have h := length_equipo_procesar r (sim_parcial r A B k) k false
      simp [equipoDe] at h
      rw [h, ih]

/-- CPython `max(iterable, key=...)` keeps the incumbent unless a later
key is strictly greater: the fold returns an element of the list whose key
is maximal and strictly above every earlier element's key. -/
theorem foldl_mejor_spec {α : Type} (key : α → ℤ) (x : α) (xs : List α) :
    ∃ i : Nat, (x :: xs)[i]? =
        some (xs.foldl (fun b y => if key y > key b then y else b) x) ∧
      (∀ z ∈ x :: xs,
        key z ≤ key (xs.foldl (fun b y => if key y > key b then y else b) x)) ∧
      ∀ j : Nat, j < i → ∀ z, (x :: xs)[j]? = some z →
        key z < key (xs.foldl (fun b y => if key y > key b then y else b) x) := by
  induction xs using List.reverseRecOn with
  | nil =>
      refine ⟨0, rfl, ?_, ?_⟩
      · intro z hz
        have hzx : z = x := by simpa using hz
        subst hzx
        exact le_refl _
      · intro j hj z hz
        omega
  | append_singleton ys y ih =>
      obtain ⟨i, hfold, hmax, hstrict⟩ := ih
      have hi : i < (x :: ys).length := by
        by_contra hcon
        rw [List.getElem?_eq_none (by omega)] at hfold
        exact Option.noConfusion hfold
      simp only [List.foldl_append, List.foldl_cons, List.foldl_nil]
      by_cases hky : key y >
          key (ys.foldl (fun b y => if key y > key b then y else b) x)
      · rw [if_pos hky]
        refine ⟨(x :: ys).length, ?_, ?_, ?_⟩
        · rw [← List.cons_append, List.getElem?_append_right (le_refl _)]
          simp
        · intro z hz
          rw [← List.cons_append] at hz
          rcases List.mem_append.mp hz with hz1 | hz1
          · exact le_trans (hmax z hz1) (le_of_lt hky)
          · rw [List.mem_singleton.mp hz1]
        · intro j hj z hz
          rw [← List.cons_append, List.getElem?_append_left hj] at hz
          have hzmem : z ∈ x :: ys := by
            obtain ⟨hb, hgz⟩ := List.getElem?_eq_some_iff.mp hz
            rw [← hgz]
            exact List.getElem_mem hb
          exact lt_of_le_of_lt (hmax z hzmem) hky
      · rw [if_neg hky]
        have hle : key y ≤
            key (ys.foldl (fun b y => if key y > key b then y else b) x) :=
          not_lt.mp hky
        refine ⟨i, ?_, ?_, ?_⟩
        · rw [← List.cons_append, List.getElem?_append_left hi]
          exact hfold
        · intro z hz
          rw [← List.cons_append] at hz
          rcases List.mem_append.mp hz with hz1 | hz1
          · exact hmax z hz1
          · rw [List.mem_singleton.mp hz1]
            exact hle
        · intro j hj z hz
          rw [← List.cons_append, List.getElem?_append_left (lt_trans hj hi)] at hz
          exact hstrict j hj z hz

/-- Claim C8: the most-valuable player of `simular` is drawn from the
concatenation of (final) roster A followed by roster B, its key
`goles*3 + regates_exitosos*2 + robos + pases` is maximal over that list,
and every player listed strictly before it has a strictly smaller key
(ties broken by first encounter). -/
theorem jugador_del_partido_spec (r : Rng) (A B : List Patabolista)
    (hA : A ≠ []) :
    (simular r A B).jugador_del_partido = pyMax mvp_valor (todos_final r A B) ∧
    ∃ mvp, (simular r A B).jugador_del_partido = some mvp ∧
      ∃ i : Nat, (todos_final r A B)[i]? = some mvp ∧
        (∀ z ∈ todos_final r A B, mvp_valor z ≤ mvp_valor mvp) ∧
        ∀ j : Nat, j < i → ∀ z, (todos_final r A B)[j]? = some z →
          mvp_valor z < mvp_valor mvp := by
  have h1 : (simular r A B).jugador_del_partido =
      pyMax mvp_valor (todos_final r A B) := rfl
  obtain ⟨x, xs, hxx⟩ : ∃ x xs, todos_final r A B = x :: xs := by
    cases hc : todos_final r A B with
    | nil =>
        exfalso
        have hsplit := List.append_eq_nil.mp hc
        have hlen := length_sim_parcial_a r A B TOTAL_ESTADOS
        rw [show (sim_parcial r A B TOTAL_ESTADOS) = estado_final r A B from rfl,
          hsplit.1] at hlen
        exact hA (List.length_eq_zero.mp hlen.symm)
    | cons x xs => exact ⟨x, xs, rfl⟩
  have h2 : pyMax mvp_valor (todos_final r A B) =
      some (xs.foldl (fun b y => if mvp_valor y > mvp_valor b then y else b) x) := by
    rw [hxx]
    rfl
  obtain ⟨i, hfold, hmax, hstrict⟩ := foldl_mejor_spec mvp_valor x xs
  refine ⟨h1, _, h1.trans h2, i, ?_, ?_, ?_⟩
  · rw [hxx]
    exact hfold
  · rw [hxx]
    exact hmax
  · intro j hj z hz
    rw [hxx] at hz
    exact hstrict j hj z hz

/-- Claim C8, witness: the most-valuable-player rule on a concrete
finished match. -/
theorem jugador_del_partido_spec_witness :
    (simular rngMitad [porteroDebil "K1" "Kala Uno"]
        [porteroDebil "K2" "Kala Dos"]).jugador_del_partido =
      pyMax mvp_valor (todos_final rngMitad [porteroDebil "K1" "Kala Uno"]
        [porteroDebil "K2" "Kala Dos"]) :=
  (jugador_del_partido_spec rngMitad [porteroDebil "K1" "Kala Uno"]
    [porteroDebil "K2" "Kala Dos"] (by simp)).1

/-! ## Claim C9: player-id normalization -/

theorem toNat_digitoChar (d : Nat) (h : d < 10) : (digitoChar d).toNat = 48 + d := by
  interval_cases d <;> rfl

theorem esDigito_digitoChar (d : Nat) (h : d < 10) : esDigito (digitoChar d) = true := by
  interval_cases d <;> rfl

theorem mayuscula_digito {c : Char} (h : esDigito c = true) : mayuscula c = c := by
  simp only [esDigito, Bool.and_eq_true, decide_eq_true_eq] at h
  unfold mayuscula
  rw [if_neg (by omega)]

theorem esEspacio_digito {c : Char} (h : esDigito c = true) : esEspacio c = false := by
  simp only [esDigito, Bool.and_eq_true, decide_eq_true_eq] at h
  simp only [esEspacio, Bool.or_eq_false_iff, decide_eq_false_iff_not]
  omega

theorem toNat_ofNat_mayus {m : Nat} (h1 : 65 ≤ m) (h2 : m ≤ 90) :
    (Char.ofNat m).toNat = m := by
  interval_cases m <;> rfl

theorem mayuscula_mayuscula (c : Char) : mayuscula (mayuscula c) = mayuscula c := by
  unfold mayuscula
  by_cases h : 97 ≤ c.toNat ∧ c.toNat ≤ 122
  · rw [if_pos h, toNat_ofNat_mayus (by omega) (by omega), if_neg (by omega)]
  · rw [if_neg h, if_neg h]

theorem esEspacio_mayuscula (c : Char) : esEspacio (mayuscula c) = esEspacio c := by
  unfold mayuscula
  by_cases h : 97 ≤ c.toNat ∧ c.toNat ≤ 122
  · rw [if_pos h]
    have e1 : esEspacio (Char.ofNat (c.toNat - 32)) = false := by
      simp only [esEspacio, Bool.or_eq_false_iff, decide_eq_false_iff_not,
        toNat_ofNat_mayus (show 65 ≤ c.toNat - 32 by omega) (show c.toNat - 32 ≤ 90 by omega)]
      omega
    have e2 : esEspacio c = false := by
      simp only [esEspacio, Bool.or_eq_false_iff, decide_eq_false_iff_not]
      omega
    rw [e1, e2]
  · rw [if_neg h]

theorem dropWhile_dropWhile (p : Char → Bool) (l : List Char) :
    (l.dropWhile p).dropWhile p = l.dropWhile p := by
  induction l with
  | nil => rfl
  | cons c t ih =>
    by_cases h : p c
    · simp [List.dropWhile_cons, h, ih]
    · simp [List.dropWhile_cons, h]

theorem dropWhile_of_all_false {p : Char → Bool} {l : List Char}
    (h : ∀ c ∈ l, p c = false) : l.dropWhile p = l := by
  cases l with
  | nil => rfl
  | cons c t => simp [List.dropWhile_cons, h c (by simp)]

theorem pyStrip_all {l : List Char} (h : ∀ c ∈ l, esEspacio c = false) :
    pyStrip l = l := by
  unfold pyStrip
  rw [dropWhile_of_all_false h,
    dropWhile_of_all_false (fun c hc => h c (List.mem_reverse.mp hc)),
    List.reverse_reverse]

theorem map_mayuscula_fixed {l : List Char} (h : ∀ c ∈ l, mayuscula c = c) :
    l.map mayuscula = l := by
  rw [List.map_congr_left (g := id) h, List.map_id]

theorem dropWhile_map_mayuscula (l : List Char) :
    (l.map mayuscula).dropWhile esEspacio = (l.dropWhile esEspacio).map mayuscula := by
  rw [List.dropWhile_map]
  have hp : (esEspacio ∘ mayuscula) = esEspacio := funext fun c => esEspacio_mayuscula c
  rw [hp]

theorem pyStrip_map_mayuscula (l : List Char) :
    pyStrip (l.map mayuscula) = (pyStrip l).map mayuscula := by
  unfold pyStrip
  rw [dropWhile_map_mayuscula, ← List.map_reverse, dropWhile_map_mayuscula,
    ← List.map_reverse]

theorem dropWhile_fix_of_stripped {p : Char → Bool} {u : List Char}
    (hu : u.dropWhile p = u) :
    ((u.reverse.dropWhile p).reverse).dropWhile p = (u.reverse.dropWhile p).reverse := by
  obtain ⟨t, ht⟩ := List.dropWhile_suffix (l := u.reverse) p
  cases hv : (u.reverse.dropWhile p).reverse with
  | nil => rfl
  | cons x v =>
    have hu2 : u = x :: (v ++ t.reverse) := by
      have h1 : u = (t ++ u.reverse.dropWhile p).reverse := by
        rw [ht, List.reverse_reverse]
      rw [List.reverse_append] at h1
      rw [h1, hv, List.cons_append]
    have hpx : p x = false := by
      by_contra hpc
      have hpx1 : p x = true := by simpa using hpc
      rw [hu2, List.dropWhile_cons, if_pos hpx1] at hu
      have hlen : ((v ++ t.reverse).dropWhile p).length = (x :: (v ++ t.reverse)).length :=
        congrArg List.length hu
      have hle := (List.dropWhile_suffix (l := v ++ t.reverse) p).length_le
      simp only [List.length_cons] at hlen
      omega
    rw [List.dropWhile_cons, if_neg (by simp [hpx])]

theorem pyStrip_pyStrip (l : List Char) : pyStrip (pyStrip l) = pyStrip l := by
  unfold pyStrip
  rw [dropWhile_fix_of_stripped (dropWhile_dropWhile esEspacio l),
    List.reverse_reverse, dropWhile_dropWhile]

theorem natADigitosF_ne_nil (fuel n : Nat) : natADigitosF fuel n ≠ [] := by
  cases fuel with
  | zero => simp [natADigitosF]
  | succ f =>
    unfold natADigitosF
    split <;> simp

theorem natADigitos_ne_nil (n : Nat) : natADigitos n ≠ [] :=
  natADigitosF_ne_nil n n

theorem natADigitosF_all (fuel : Nat) :
    ∀ n, n ≤ fuel → (natADigitosF fuel n).all esDigito = true := by
  induction fuel with
  | zero =>
    intro n h
    have hn : n = 0 := by omega
    subst hn
    simp [natADigitosF, esDigito_digitoChar 0 (by omega)]
  | succ f ih =>
    intro n h
    unfold natADigitosF
    split
    · next h10 => simp [esDigito_digitoChar _ h10]
    · next h10 =>
      rw [List.all_append]
      have hdiv : n / 10 ≤ f := by omega
      simp [ih (n / 10) hdiv, esDigito_digitoChar _ (Nat.mod_lt _ (by omega))]

theorem natADigitos_all (n : Nat) : (natADigitos n).all esDigito = true :=
  natADigitosF_all n n le_rfl

theorem digitosANat_append (xs : List Char) (c : Char) :
    digitosANat (xs ++ [c]) = 10 * digitosANat xs + (c.toNat - 48) := by
  unfold digitosANat
  rw [List.foldl_append]
  rfl

theorem digitosANat_natADigitosF (fuel : Nat) :
    ∀ n, n ≤ fuel → digitosANat (natADigitosF fuel n) = n := by
  induction fuel with
  | zero =>
    intro n h
    have hn : n = 0 := by omega
    subst hn
    rfl
  | succ f ih =>
    intro n h
    unfold natADigitosF
    split
    · next h10 =>
      show digitosANat ([] ++ [digitoChar n]) = n
      rw [digitosANat_append, toNat_digitoChar _ h10]
      simp [digitosANat]
    · next h10 =>
      have hdiv : n / 10 ≤ f := by omega
      rw [digitosANat_append, ih (n / 10) hdiv,
        toNat_digitoChar _ (Nat.mod_lt _ (by omega))]
      omega

theorem digitosANat_natADigitos (n : Nat) : digitosANat (natADigitos n) = n :=
  digitosANat_natADigitosF n n le_rfl

theorem nucleo_estable (t : List Char) (hs : pyStrip t = t)
    (hm : t.map mayuscula = t) :
    normalizarNucleo ((pyStrip (normalizarNucleo t)).map mayuscula) = normalizarNucleo t := by
  cases t with
  | nil => rfl
  | cons c rest =>
    by_cases hc : c = 'P' ∧ rest ≠ [] ∧ rest.all esDigito
    · rw [show normalizarNucleo (c :: rest) =
          'P' :: natADigitos (digitosANat rest) by
        simp only [normalizarNucleo]; rw [if_pos hc]]
      have hds := natADigitos_all (digitosANat rest)
      have hmem : ∀ ch ∈ natADigitos (digitosANat rest), esDigito ch = true := by
        intro ch hch
        exact List.all_eq_true.mp hds ch hch
      have h1 : pyStrip ('P' :: natADigitos (digitosANat rest)) =
          'P' :: natADigitos (digitosANat rest) := by
        apply pyStrip_all
        intro ch hch
        rcases List.mem_cons.mp hch with h | h
        · subst h; rfl
        · exact esEspacio_digito (hmem ch h)
      have h2 : ('P' :: natADigitos (digitosANat rest)).map mayuscula =
          'P' :: natADigitos (digitosANat rest) := by
        apply map_mayuscula_fixed
        intro ch hch
        rcases List.mem_cons.mp hch with h | h
        · subst h; rfl
        · exact mayuscula_digito (hmem ch h)
      rw [h1, h2]
      simp only [normalizarNucleo]
      rw [if_pos ⟨trivial, natADigitos_ne_nil _, hds⟩, digitosANat_natADigitos]
    · rw [show normalizarNucleo (c :: rest) = c :: rest by
        simp only [normalizarNucleo]; rw [if_neg hc]]
      rw [hs, hm]
      simp only [normalizarNucleo]
      rw [if_neg hc]

theorem normalizarIdL_idem (l : List Char) :
    normalizarIdL (normalizarIdL l) = normalizarIdL l := by
  unfold normalizarIdL
  apply nucleo_estable
  · rw [pyStrip_map_mayuscula, pyStrip_pyStrip]
  · rw [List.map_map]
    exact List.map_congr_left (fun c _ => mayuscula_mayuscula c)

/-! ## Dictionary and sampling lemmas -/

theorem lookup_dictSet_self {α : Type} (l : List (String × α)) (k : String) (v : α) :
    List.lookup k (dictSet l k v) = some v := by
  unfold dictSet
  split
  · rename_i hs
    induction l with
    | nil => simp at hs
    | cons a t ih =>
        obtain ⟨a1, a2⟩ := a
        by_cases hak : a1 = k
        · rw [List.map_cons]
          simp only [if_pos hak]
          simp only [List.lookup_cons]
          rw [show (k == k) = true from beq_self_eq_true k]
        · rw [List.map_cons]
          simp only [if_neg hak]
          have hne : k ≠ a1 := fun hh => hak hh.symm
          simp only [List.lookup_cons] at hs ⊢
          rw [show (k == a1) = false from beq_eq_false_iff_ne.mpr hne]
          rw [show (k == a1) = false from beq_eq_false_iff_ne.mpr hne] at hs
          exact ih hs
  · rename_i hs
    have hnone : List.lookup k l = none := by
      cases hl : List.lookup k l with
      | none => rfl
      | some x => rw [hl] at hs; simp at hs
    clear hs
    induction l with
    | nil =>
        simp only [List.nil_append, List.lookup_cons]
        rw [show (k == k) = true from beq_self_eq_true k]
    | cons a t ih =>
        obtain ⟨a1, a2⟩ := a
        simp only [List.lookup_cons] at hnone
        cases hka : (k == a1) with
        | true => rw [hka] at hnone; simp at hnone
        | false =>
            rw [hka] at hnone
            simp only [List.cons_append, List.lookup_cons, hka]
            exact ih hnone

theorem lookup_dictSet_ne {α : Type} (l : List (String × α)) (k k' : String) (v : α)
    (h : k' ≠ k) : List.lookup k' (dictSet l k v) = List.lookup k' l := by
  have hkk : (k' == k) = false := beq_eq_false_iff_ne.mpr h
  unfold dictSet
  split
  all_goals rename_i hsome
  all_goals clear hsome
  · induction l with
    | nil => simp
    | cons a t ih =>
        obtain ⟨a1, a2⟩ := a
        by_cases hak : a1 = k
        · rw [List.map_cons]
          simp only [if_pos hak]
          simp only [List.lookup_cons]
          rw [show (k' == k) = false from hkk,
            show (k' == a1) = false from hak ▸ hkk]
          exact ih
        · rw [List.map_cons]
          simp only [if_neg hak]
          simp only [List.lookup_cons]
          cases hka : (k' == a1) with
          | true => rfl
          | false => exact ih
  · induction l with
    | nil =>
        simp only [List.nil_append, List.lookup_cons]
        rw [hkk]
    | cons a t ih =>
        obtain ⟨a1, a2⟩ := a
        simp only [List.cons_append, List.lookup_cons]
        cases hka : (k' == a1) with
        | true => rfl
        | false => exact ih

theorem mem_dictSet {α : Type} (l : List (String × α)) (k : String) (v : α)
    (p : String × α) (hp : p ∈ dictSet l k v) : p ∈ l ∨ p = (k, v) := by
  unfold dictSet at hp
  split at hp
  · obtain ⟨q, hq, hqe⟩ := List.mem_map.mp hp
    by_cases hqk : q.1 = k
    · rw [if_pos hqk] at hqe
      exact Or.inr hqe.symm
    · rw [if_neg hqk] at hqe
      exact Or.inl (hqe ▸ hq)
  · rcases List.mem_append.mp hp with h | h
    · exact Or.inl h
    · exact Or.inr (List.mem_singleton.mp h)

theorem length_dictSet {α : Type} (l : List (String × α)) (k : String) (v : α)
    (h : (List.lookup k l).isSome) : (dictSet l k v).length = l.length := by
  unfold dictSet
  rw [if_pos h, List.length_map]

theorem lookup_mem {α : Type} {l : List (String × α)} {k : String} {v : α}
    (h : List.lookup k l = some v) : (k, v) ∈ l := by
  induction l with
  | nil => simp [List.lookup] at h
  | cons a t ih =>
      obtain ⟨a1, a2⟩ := a
      simp only [List.lookup_cons] at h
      cases hka : (k == a1) with
      | true =>
          rw [hka] at h
          have hk : k = a1 := by simpa using hka
          obtain rfl : a2 = v := by simpa using h
          subst hk
          exact List.mem_cons_self _ _
      | false =>
          rw [hka] at h
          exact List.mem_cons_of_mem _ (ih h)

theorem jugadores_actualizar (s : Sesion) :
    (s.actualizar_estado).jugadores = s.jugadores := by
  unfold Sesion.actualizar_estado
  split
  · rfl
  · split <;> rfl

theorem pySample_length {α : Type} [Inhabited α] (r : Rng) :
    ∀ (k : Nat) (c : Cnt) (l : List α),
      ((pySample r c l k).1).length = min k l.length := by
  intro k
  induction k with
  | zero => intro c l; simp [pySample]
  | succ k ih =>
      intro c l
      by_cases hl : l.isEmpty
      · have hnil : l = [] := by simpa using hl
        subst hnil
        simp [pySample]
      · have hpos : 0 < l.length := by
          cases l with
          | nil => simp at hl
          | cons a t => simp
        simp only [pySample, hl]
        rw [if_neg (by simp [hl])]
        simp only [List.length_cons, ih]
        have hidx : r.picks c.pi % l.length < l.length := Nat.mod_lt _ hpos
        rw [List.length_eraseIdx, if_pos hidx]
        omega

theorem pySample_mem {α : Type} [Inhabited α] (r : Rng) :
    ∀ (k : Nat) (c : Cnt) (l : List α) (x : α),
      x ∈ (pySample r c l k).1 → x ∈ l := by
  intro k
  induction k with
  | zero => intro c l x hx; simp [pySample] at hx
  | succ k ih =>
      intro c l x hx
      by_cases hl : l.isEmpty
      · have hnil : l = [] := by simpa using hl
        subst hnil
        simp [pySample] at hx
      · have hpos : 0 < l.length := by
          cases l with
          | nil => simp at hl
          | cons a t => simp
        simp only [pySample, hl] at hx
        rw [if_neg (by simp [hl])] at hx
        rcases List.mem_cons.mp hx with h | h
        · subst h
          have hidx : r.picks c.pi % l.length < l.length := Nat.mod_lt _ hpos
          rw [List.getD_eq_getElem l default hidx]
          exact List.getElem_mem hidx
        · exact List.eraseIdx_subset _ _ (ih _ _ x h)

theorem pyChoice_mem {α : Type} [Inhabited α] (r : Rng) (c : Cnt) (l : List α)
    (h : l ≠ []) : (pyChoice r c l).1 ∈ l := by
  have hpos : 0 < l.length := List.length_pos.mpr h
  have hidx : r.picks c.pi % l.length < l.length := Nat.mod_lt _ hpos
  unfold pyChoice
  rw [List.getD_eq_getElem l default hidx]
  exact List.getElem_mem hidx

/-! ## Claim C3: the scripted opponent is strictly reactive -/

theorem botSinEquipo_sesiones_eq {w' w : Mundo} (hses : w'.sesiones = w.sesiones)
    (hw : botSinEquipo w) : botSinEquipo w' := by
  intro p hp
  rw [hses] at hp
  exact hw p hp

theorem obtener_mem {w : Mundo} {user : String} {ss : String × Sesion}
    (h : obtener_sesion_de_usuario w user = some ss) :
    (ss.1, ss.2) ∈ w.sesiones := by
  unfold obtener_sesion_de_usuario at h
  split at h
  · exact Option.noConfusion h
  · split at h
    · exact Option.noConfusion h
    · split at h
      · exact Option.noConfusion h
      · rename_i s hlook
        obtain rfl := Option.some.inj h
        exact lookup_mem hlook

theorem bot_vacio_dictSet_jugadores {jug : List (String × JugadorEnSesion)}
    {user : String} {j2 : JugadorEnSesion}
    (hu : user ≠ BOT_NUMERO_TELEFONO)
    (hs : ∀ q ∈ jug, q.1 = BOT_NUMERO_TELEFONO → q.2.equipo = []) :
    ∀ q ∈ dictSet jug user j2, q.1 = BOT_NUMERO_TELEFONO → q.2.equipo = [] := by
  intro q hq hbq
  rcases mem_dictSet _ _ _ _ hq with h | h
  · exact hs q h hbq
  · rw [h] at hbq
    exact absurd hbq hu

theorem bot_cmdSesionNueva (r : Rng) (w : Mundo) (partes : List String) (user : String)
    (hu : user ≠ BOT_NUMERO_TELEFONO) (hw : botSinEquipo w) :
    botSinEquipo (cmdSesionNueva r w partes user).mundo := by
  simp only [cmdSesionNueva, crear_sesion]
  split
  · exact hw
  · intro p hp q hq hbq
    rcases mem_dictSet _ _ _ _ hp with h | h
    · exact hw p h q hq hbq
    · rw [h] at hq
      simp at hq
      rw [hq] at hbq
      exact absurd hbq hu

theorem bot_unirse_sesion (r : Rng) (w : Mundo) (sid user nick : String)
    (ne : Option String) (hw : botSinEquipo w) :
    botSinEquipo (unirse_sesion r w sid user nick ne).2 := by
  simp only [unirse_sesion]
  split
  · exact hw
  · rename_i sesion hlook
    split
    · exact hw
    · split
      · exact hw
      · intro p hp q hq hbq
        rcases mem_dictSet _ _ _ _ hp with h | h
        · exact hw p h q hq hbq
        · rw [h] at hq
          rw [jugadores_actualizar] at hq
          rcases mem_dictSet _ _ _ _ hq with h2 | h2
          · exact hw (pyStripStr (pyUpper sid), sesion) (lookup_mem hlook) q h2 hbq
          · rw [h2]

theorem bot_cmdUnirse (r : Rng) (w : Mundo) (partes : List String) (user : String)
    (hw : botSinEquipo w) :
    botSinEquipo (cmdUnirse r w partes user).mundo := by
  simp only [cmdUnirse]
  split
  · exact hw
  · repeat' split
    all_goals exact bot_unirse_sesion _ _ _ _ _ _ hw

theorem bot_agregar_bot (r : Rng) (w : Mundo) (sid user : String)
    (ne : Option String) (hw : botSinEquipo w) :
    botSinEquipo (agregar_bot_a_sesion r w sid user ne).2 := by
  simp only [agregar_bot_a_sesion]
  split
  · exact hw
  · rename_i sesion hlook
    split
    · exact hw
    · split
      · exact hw
      · split
        · exact hw
        · intro p hp q hq hbq
          rcases mem_dictSet _ _ _ _ hp with h | h
          · exact hw p h q hq hbq
          · rw [h] at hq
            rw [jugadores_actualizar] at hq
            rcases mem_dictSet _ _ _ _ hq with h2 | h2
            · exact hw (pyStripStr (pyUpper sid), sesion) (lookup_mem hlook) q h2 hbq
            · rw [h2]

theorem bot_cmdUnirseIa (r : Rng) (w : Mundo) (partes : List String) (user : String)
    (s : Sesion) (hw : botSinEquipo w) :
    botSinEquipo (cmdUnirseIa r w partes user s).mundo := by
  simp only [cmdUnirseIa]
  exact bot_agregar_bot _ _ _ _ _ hw

theorem bot_cmdPool (r : Rng) (w : Mundo) (partes : List String) (s : Sesion)
    (hw : botSinEquipo w) : botSinEquipo (cmdPool r w partes s).mundo := by
  simp only [cmdPool]
  repeat' split
  all_goals exact botSinEquipo_sesiones_eq rfl hw

theorem bot_cmdDetalle (w : Mundo) (partes : List String) (s : Sesion)
    (hw : botSinEquipo w) : botSinEquipo (cmdDetalle w partes s).mundo := by
  simp only [cmdDetalle]
  repeat' split
  all_goals exact hw

theorem bot_cmdEquipo (w : Mundo) (user : String) (s : Sesion)
    (hw : botSinEquipo w) : botSinEquipo (cmdEquipo w user s).mundo := by
  simp only [cmdEquipo]
  repeat' split
  all_goals exact hw

theorem bot_cmdEstadisticas (w : Mundo) (s : Sesion)
    (hw : botSinEquipo w) : botSinEquipo (cmdEstadisticas w s).mundo := by
  simp only [cmdEstadisticas]
  repeat' split
  all_goals exact hw

theorem bot_cmdSeleccionar (w : Mundo) (partes : List String) (user sid : String)
    (s : Sesion) (hu : user ≠ BOT_NUMERO_TELEFONO) (hw : botSinEquipo w)
    (hbs : ∀ q ∈ s.jugadores, q.1 = BOT_NUMERO_TELEFONO → q.2.equipo = []) :
    botSinEquipo (cmdSeleccionar w partes user sid s).mundo := by
  simp only [cmdSeleccionar]
  repeat' split
  all_goals try exact botSinEquipo_sesiones_eq rfl hw
  all_goals intro p hp q hq hbq
  all_goals rcases mem_dictSet _ _ _ _ hp with h | h
  all_goals try exact hw p h q hq hbq
  all_goals rw [h] at hq
  all_goals rw [jugadores_actualizar] at hq
  all_goals exact bot_vacio_dictSet_jugadores hu hbs q hq hbq

theorem bot_cmdSeleccionarAuto (r : Rng) (w : Mundo) (user sid : String)
    (s : Sesion) (hu : user ≠ BOT_NUMERO_TELEFONO) (hw : botSinEquipo w)
    (hbs : ∀ q ∈ s.jugadores, q.1 = BOT_NUMERO_TELEFONO → q.2.equipo = []) :
    botSinEquipo (cmdSeleccionarAuto r w user sid s).mundo := by
  simp only [cmdSeleccionarAuto]
  repeat' split
  all_goals try exact botSinEquipo_sesiones_eq rfl hw
  all_goals intro p hp q hq hbq
  all_goals rcases mem_dictSet _ _ _ _ hp with h | h
  all_goals try exact hw p h q hq hbq
  all_goals rw [h] at hq
  all_goals rw [jugadores_actualizar] at hq
  all_goals exact bot_vacio_dictSet_jugadores hu hbs q hq hbq

theorem bot_cmdQuitar (w : Mundo) (partes : List String) (user sid : String)
    (s : Sesion) (hu : user ≠ BOT_NUMERO_TELEFONO) (hw : botSinEquipo w)
    (hbs : ∀ q ∈ s.jugadores, q.1 = BOT_NUMERO_TELEFONO → q.2.equipo = []) :
    botSinEquipo (cmdQuitar w partes user sid s).mundo := by
  simp only [cmdQuitar]
  repeat' split
  all_goals try exact botSinEquipo_sesiones_eq rfl hw
  all_goals intro p hp q hq hbq
  all_goals rcases mem_dictSet _ _ _ _ hp with h | h
  all_goals try exact hw p h q hq hbq
  all_goals rw [h] at hq
  all_goals rw [jugadores_actualizar] at hq
  all_goals exact bot_vacio_dictSet_jugadores hu hbs q hq hbq

theorem bot_salir (w : Mundo) (user : String) (hw : botSinEquipo w) :
    botSinEquipo (salir_sesion w user) := by
  simp only [salir_sesion]
  split
  · exact hw
  · rename_i sid hlook
    split
    · exact botSinEquipo_sesiones_eq rfl hw
    · split
      · exact botSinEquipo_sesiones_eq rfl hw
      · rename_i sesion hlook2
        split
        · intro p hp
          exact hw p (List.mem_of_mem_filter hp)
        · intro p hp q hq hbq
          rcases mem_dictSet _ _ _ _ hp with h | h
          · exact hw p h q hq hbq
          · rw [h] at hq
            rw [jugadores_actualizar] at hq
            have hq2 : q ∈ sesion.jugadores := List.mem_of_mem_filter hq
            exact hw (sid, sesion) (lookup_mem hlook2) q hq2 hbq

theorem bot_despachar (r : Rng) (w : Mundo) (partes : List String) (user cmd : String)
    (hu : user ≠ BOT_NUMERO_TELEFONO) (hcmd : cmd ≠ "/confirmar")
    (hw : botSinEquipo w) :
    botSinEquipo (despachar r w partes user cmd).mundo := by
  unfold despachar
  split
  · split
    · exact bot_cmdSesionNueva _ _ _ _ hu hw
    · split
      · exact bot_cmdUnirse _ _ _ _ hw
      · exact hw
  · rename_i ss hss
    have hbs : ∀ q ∈ ss.2.jugadores, q.1 = BOT_NUMERO_TELEFONO → q.2.equipo = [] :=
      fun q hq hbq => hw (ss.1, ss.2) (obtener_mem hss) q hq hbq
    by_cases h1 : cmd = "/ayuda" ∨ cmd = "/help"
    · rw [if_pos h1]; exact hw
    · rw [if_neg h1]
      by_cases h2 : cmd = "/iniciar"
      · rw [if_pos h2]; exact hw
      · rw [if_neg h2]
        by_cases h3 : cmd = "/sesion"
        · rw [if_pos h3]; exact hw
        · rw [if_neg h3]
          by_cases h4 : cmd = "/unirse"
          · rw [if_pos h4]
            split
            · exact bot_cmdUnirseIa _ _ _ _ _ hw
            · exact hw
          · rw [if_neg h4]
            by_cases h5 : cmd = "/salir"
            · rw [if_pos h5]; exact bot_salir _ _ hw
            · rw [if_neg h5]
              by_cases h6 : cmd = "/pool"
              · rw [if_pos h6]; exact bot_cmdPool _ _ _ _ hw
              · rw [if_neg h6]
                by_cases h7 : cmd = "/detalle"
                · rw [if_pos h7]; exact bot_cmdDetalle _ _ _ hw
                · rw [if_neg h7]
                  by_cases h8 : cmd = "/seleccionar"
                  · rw [if_pos h8]; exact bot_cmdSeleccionar _ _ _ _ _ hu hw hbs
                  · rw [if_neg h8]
                    by_cases h9 : cmd = "/seleccionar_auto"
                    · rw [if_pos h9]; exact bot_cmdSeleccionarAuto _ _ _ _ _ hu hw hbs
                    · rw [if_neg h9]
                      by_cases h10 : cmd = "/quitar"
                      · rw [if_pos h10]; exact bot_cmdQuitar _ _ _ _ _ hu hw hbs
                      · rw [if_neg h10]
                        by_cases h11 : cmd = "/equipo"
                        · rw [if_pos h11]; exact bot_cmdEquipo _ _ _ hw
                        · rw [if_neg h11]
                          rw [if_neg hcmd]
                          by_cases h13 : cmd = "/estadisticas"
                          · rw [if_pos h13]; exact bot_cmdEstadisticas _ _ hw
                          · rw [if_neg h13]; exact hw

theorem bot_procesar (r : Rng) (w : Mundo) (comando user : String)
    (hu : user ≠ BOT_NUMERO_TELEFONO)
    (hcmd : comandoResuelto (pySplitWs (pyStripStr comando)) ≠ "/confirmar")
    (hw : botSinEquipo w) :
    botSinEquipo (procesar_comando r w comando user).mundo := by
  unfold procesar_comando
  split
  · exact hw
  · exact bot_despachar _ _ _ _ _ hu hcmd hw

theorem bot_traza (r : Rng) (cmds : List (String × String)) :
    ∀ w : Mundo, botSinEquipo w →
      (∀ cu ∈ cmds, cu.2 ≠ BOT_NUMERO_TELEFONO ∧
        comandoResuelto (pySplitWs (pyStripStr cu.1)) ≠ "/confirmar") →
      botSinEquipo (cmds.foldl
        (fun w cu => (procesar_comando r w cu.1 cu.2).mundo) w) := by
  induction cmds with
  | nil =>
      intro w hw _
      exact hw
  | cons cu t ih =>
      intro w hw hall
      rw [List.foldl_cons]
      exact ih _
        (bot_procesar r w cu.1 cu.2 (hall cu (List.mem_cons_self _ _)).1
          (hall cu (List.mem_cons_self _ _)).2 hw)
        (fun x hx => hall x (List.mem_cons_of_mem _ hx))

/-- The shared draft rule on a non-empty eligible list: non-empty result of
at most 5 indices, all eligible, goalkeeper-first when one is eligible. -/
theorem borrador_equipo_spec (r : Rng) (c : Cnt) (pool : List Patabolista)
    (disponible : List Nat) (hdisp : disponible ≠ []) :
    (borrador_equipo r c pool disponible).1 ≠ [] ∧
    (borrador_equipo r c pool disponible).1.length ≤ MAX_JUGADORES_EQUIPO ∧
    (∀ i ∈ (borrador_equipo r c pool disponible).1, i ∈ disponible) ∧
    (disponible.filter
        (fun i => (pool.getD i default).rol_preferido == Rol.PORTERO) ≠ [] →
      ∃ g rest, (borrador_equipo r c pool disponible).1 = g :: rest ∧
        (pool.getD g default).rol_preferido = Rol.PORTERO) := by
  have hlen : 0 < disponible.length := List.length_pos.mpr hdisp
  by_cases hport : disponible.filter
      (fun i => (pool.getD i default).rol_preferido == Rol.PORTERO) = []
  · have hp1 : (if (!(disponible.filter
          (fun i => (pool.getD i default).rol_preferido == Rol.PORTERO)).isEmpty ∧
          0 < min MAX_JUGADORES_EQUIPO disponible.length) then
          ([(pyChoice r c (disponible.filter
              (fun i => (pool.getD i default).rol_preferido == Rol.PORTERO))).1],
            (pyChoice r c (disponible.filter
              (fun i => (pool.getD i default).rol_preferido == Rol.PORTERO))).2)
        else (([] : List Nat), c)) = (([] : List Nat), c) :=
      if_neg (by
        intro hcon
        rw [hport] at hcon
        simp at hcon)
    have hcand : disponible.filter
        (fun i => !((([] : List Nat), c).1.contains i)) = disponible := by
      apply List.filter_eq_self.mpr
      intro a _
      rfl
    simp only [borrador_equipo]
    rw [hp1, hcand]
    split
    · rename_i hcond
      refine ⟨?_, ?_, ?_, ?_⟩
      · apply List.length_pos.mp
        simp only [List.nil_append, pySample_length]
        simp only [MAX_JUGADORES_EQUIPO, List.length_nil]
        omega
      · simp only [List.nil_append, pySample_length]
        simp only [MAX_JUGADORES_EQUIPO, List.length_nil]
        omega
      · intro i hi
        simp only [List.nil_append] at hi
        exact pySample_mem r _ _ _ i hi
      · intro hcon
        exact absurd hport hcon
    · rename_i hcond
      exfalso
      apply hcond
      constructor
      · simp only [MAX_JUGADORES_EQUIPO, List.length_nil]
        omega
      · simp [hdisp]
  · have hp1 : (if (!(disponible.filter
          (fun i => (pool.getD i default).rol_preferido == Rol.PORTERO)).isEmpty ∧
          0 < min MAX_JUGADORES_EQUIPO disponible.length) then
          ([(pyChoice r c (disponible.filter
              (fun i => (pool.getD i default).rol_preferido == Rol.PORTERO))).1],
            (pyChoice r c (disponible.filter
              (fun i => (pool.getD i default).rol_preferido == Rol.PORTERO))).2)
        else (([] : List Nat), c)) =
        ([(pyChoice r c (disponible.filter
            (fun i => (pool.getD i default).rol_preferido == Rol.PORTERO))).1],
          (pyChoice r c (disponible.filter
            (fun i => (pool.getD i default).rol_preferido == Rol.PORTERO))).2) :=
      if_pos (by
        refine ⟨?_, ?_⟩
        · simpa using hport
        · simp only [MAX_JUGADORES_EQUIPO]
          omega)
    have hg := pyChoice_mem r c (disponible.filter
      (fun i => (pool.getD i default).rol_preferido == Rol.PORTERO)) hport
    obtain ⟨hgd, hgrol⟩ := List.mem_filter.mp hg
    have hgrol2 : ((pool.getD ((pyChoice r c (disponible.filter
        (fun i => (pool.getD i default).rol_preferido == Rol.PORTERO))).1)
        default).rol_preferido) = Rol.PORTERO := by
      simpa using hgrol
    simp only [borrador_equipo]
    rw [hp1]
    split
    · refine ⟨?_, ?_, ?_, ?_⟩
      · simp
      · rw [List.length_append, pySample_length]
        simp only [MAX_JUGADORES_EQUIPO, List.length_singleton]
        omega
      · intro i hi
        rcases List.mem_append.mp hi with h | h
        · rw [List.mem_singleton.mp h]
          exact hgd
        · exact List.mem_of_mem_filter (pySample_mem r _ _ _ i h)
      · intro _
        exact ⟨_, _, rfl, hgrol2⟩
    · refine ⟨?_, ?_, ?_, ?_⟩
      · simp
      · simp [MAX_JUGADORES_EQUIPO]
      · intro i hi
        rw [List.mem_singleton.mp hi]
        exact hgd
      · intro _
        exact ⟨_, _, rfl, hgrol2⟩

/-- The scripted opponent's draft: with two occupied slots, a present bot
with an empty roster and a non-empty eligible pool, the bot ends with a
non-empty roster of at most 5 eligible indices, auto-confirmed, with a
goalkeeper first whenever one is eligible. -/
theorem seleccionar_equipo_bot_drafta (r : Rng) (c : Cnt) (s : Sesion)
    (bj : JugadorEnSesion)
    (h2 : s.jugadores.length = 2)
    (hbj : List.lookup BOT_NUMERO_TELEFONO s.jugadores = some bj)
    (hvacio : bj.equipo = [])
    (hdisp : s.pool_disponible_para BOT_NUMERO_TELEFONO ≠ []) :
    ∃ bot2 : JugadorEnSesion,
      List.lookup BOT_NUMERO_TELEFONO
          (seleccionar_equipo_bot_si_aplica r c s).1.jugadores = some bot2 ∧
      bot2.equipo ≠ [] ∧
      bot2.equipo.length ≤ MAX_JUGADORES_EQUIPO ∧
      bot2.estado_equipo = EstadoEquipo.CONFIRMADO ∧
      (∀ i ∈ bot2.equipo, i ∈ s.pool_disponible_para BOT_NUMERO_TELEFONO) ∧
      ((s.pool_disponible_para BOT_NUMERO_TELEFONO).filter
          (fun i => (s.pool.getD i default).rol_preferido == Rol.PORTERO) ≠ [] →
        ∃ g rest, bot2.equipo = g :: rest ∧
          (s.pool.getD g default).rol_preferido = Rol.PORTERO) := by
  obtain ⟨hne, hlen5, hmem, hgk⟩ :=
    borrador_equipo_spec r c s.pool (s.pool_disponible_para BOT_NUMERO_TELEFONO) hdisp
  simp only [seleccionar_equipo_bot_si_aplica]
  rw [if_neg (not_not_intro h2)]
  split
  · rename_i hnone
    rw [hbj] at hnone
    exact Option.noConfusion hnone
  · rename_i bj' hbj'
    rw [hbj] at hbj'
    obtain rfl : bj = bj' := Option.some.inj hbj'
    rw [if_neg (by simp [hvacio]), if_neg (by simp [hdisp]),
      if_neg (by simp [hne])]
    refine ⟨{ bj with
        equipo := (borrador_equipo r c s.pool
          (s.pool_disponible_para BOT_NUMERO_TELEFONO)).1,
        estado_equipo := EstadoEquipo.CONFIRMADO },
      ?_, hne, hlen5, rfl, hmem, hgk⟩
    rw [jugadores_actualizar]
    exact lookup_dictSet_self _ _ _

/-- A human confirmation on a session whose scripted opponent still has an
empty roster makes the opponent draft at once: non-empty, at most 5, all
from its eligible pool, goalkeeper first when eligible, auto-confirmed. -/
theorem confirmacion_drafta_bot (r : Rng) (w : Mundo) (user sid : String)
    (sesion : Sesion) (j bj : JugadorEnSesion)
    (hu : user ≠ BOT_NUMERO_TELEFONO)
    (hs : obtener_sesion_de_usuario w user = some (sid, sesion))
    (hj : sesion.jugador_por_telefono user = some j)
    (hne : j.equipo ≠ [])
    (hconf : j.equipo_confirmado = false)
    (hbj : List.lookup BOT_NUMERO_TELEFONO sesion.jugadores = some bj)
    (hbvacio : bj.equipo = [])
    (h2 : sesion.jugadores.length = 2)
    (hdisp : (sesion_tras_confirmacion sesion user j).pool_disponible_para
      BOT_NUMERO_TELEFONO ≠ []) :
    ∃ (s2 : Sesion) (bot2 : JugadorEnSesion),
      List.lookup sid (procesar_comando r w "/confirmar" user).mundo.sesiones =
        some s2 ∧
      List.lookup BOT_NUMERO_TELEFONO s2.jugadores = some bot2 ∧
      bot2.equipo ≠ [] ∧
      bot2.equipo.length ≤ MAX_JUGADORES_EQUIPO ∧
      bot2.estado_equipo = EstadoEquipo.CONFIRMADO ∧
      (∀ i ∈ bot2.equipo,
        i ∈ (sesion_tras_confirmacion sesion user j).pool_disponible_para
          BOT_NUMERO_TELEFONO) ∧
      (((sesion_tras_confirmacion sesion user j).pool_disponible_para
            BOT_NUMERO_TELEFONO).filter
          (fun i => ((sesion_tras_confirmacion sesion user j).pool.getD i
            default).rol_preferido == Rol.PORTERO) ≠ [] →
        ∃ g rest, bot2.equipo = g :: rest ∧
          ((sesion_tras_confirmacion sesion user j).pool.getD g
            default).rol_preferido = Rol.PORTERO) := by
  have hlu : List.lookup user sesion.jugadores = some j := hj
  have hlookA : List.lookup BOT_NUMERO_TELEFONO (dictSet sesion.jugadores user
      { j with estado_equipo := EstadoEquipo.CONFIRMADO }) = some bj := by
    rw [lookup_dictSet_ne _ _ _ _ (fun hh => hu hh.symm)]
    exact hbj
  have h2' : (sesion_tras_confirmacion sesion user j).jugadores.length = 2 := by
    have hsome : (List.lookup user sesion.jugadores).isSome := by
      rw [hlu]
      rfl
    show (dictSet sesion.jugadores user _).length = 2
    rw [length_dictSet _ _ _ hsome]
    exact h2
  have hbj' : List.lookup BOT_NUMERO_TELEFONO
      (sesion_tras_confirmacion sesion user j).jugadores = some bj := hlookA
  obtain ⟨bot2, hb1, hb2, hb3, hb4, hb5, hb6⟩ :=
    seleccionar_equipo_bot_drafta r w.cnt (sesion_tras_confirmacion sesion user j)
      bj h2' hbj' hbvacio hdisp
  have hd : procesar_comando r w "/confirmar" user =
      (match obtener_sesion_de_usuario w user with
       | none => ⟨[MENSAJE_NO_CONECTADO], none, w⟩
       | some ss => cmdConfirmar r w user ss.1 ss.2) := rfl
  rw [hd, hs]
  rw [show (match some (sid, sesion) with
      | none => (⟨[MENSAJE_NO_CONECTADO], none, w⟩ : Respuesta)
      | some ss => cmdConfirmar r w user ss.1 ss.2) =
      cmdConfirmar r w user sid sesion from rfl]
  simp only [cmdConfirmar, hj]
  rw [if_neg (by simp [List.isEmpty_eq_false.mpr hne]), if_neg (by simp [hconf])]
  simp only [hlookA]
  rw [show (if bj.equipo.isEmpty = true then
        seleccionar_equipo_bot_si_aplica r w.cnt { sesion with jugadores := dictSet sesion.jugadores user { j with estado_equipo := EstadoEquipo.CONFIRMADO } }
      else ({ sesion with jugadores := dictSet sesion.jugadores user { j with estado_equipo := EstadoEquipo.CONFIRMADO } }, w.cnt)) =
      seleccionar_equipo_bot_si_aplica r w.cnt { sesion with jugadores := dictSet sesion.jugadores user { j with estado_equipo := EstadoEquipo.CONFIRMADO } }
    from if_pos (by simp [hbvacio])]
  refine ⟨(seleccionar_equipo_bot_si_aplica r w.cnt
      (sesion_tras_confirmacion sesion user j)).1, bot2,
    ?_, hb1, hb2, hb3, hb4, hb5, hb6⟩
  rw [apply_ite Respuesta.mundo, ite_self]
  exact lookup_dictSet_self _ _ _

/-- Claim C3: (a) along any command sequence sent by users other than the
scripted opponent in which no command resolves to `/confirmar`, every
scripted-opponent roster in the store stays empty — the opponent never
drafts before the human confirms; (b) immediately after a human
confirmation on a session where the opponent is present with an empty
roster and its eligible pool is non-empty, the opponent auto-drafts a
non-empty roster of at most 5 eligible players (a goalkeeper first
whenever one is eligible) and is auto-confirmed. -/
theorem bot_reactivo_spec :
    (∀ (r : Rng) (cmds : List (String × String)) (w : Mundo),
      botSinEquipo w →
      (∀ cu ∈ cmds, cu.2 ≠ BOT_NUMERO_TELEFONO ∧
        comandoResuelto (pySplitWs (pyStripStr cu.1)) ≠ "/confirmar") →
      botSinEquipo (cmds.foldl
        (fun w cu => (procesar_comando r w cu.1 cu.2).mundo) w)) ∧
    (∀ (r : Rng) (w : Mundo) (user sid : String) (sesion : Sesion)
        (j bj : JugadorEnSesion),
      user ≠ BOT_NUMERO_TELEFONO →
      obtener_sesion_de_usuario w user = some (sid, sesion) →
      sesion.jugador_por_telefono user = some j →
      j.equipo ≠ [] →
      j.equipo_confirmado = false →
      List.lookup BOT_NUMERO_TELEFONO sesion.jugadores = some bj →
      bj.equipo = [] →
      sesion.jugadores.length = 2 →
      (sesion_tras_confirmacion sesion user j).pool_disponible_para
        BOT_NUMERO_TELEFONO ≠ [] →
      ∃ (s2 : Sesion) (bot2 : JugadorEnSesion),
        List.lookup sid
            (procesar_comando r w "/confirmar" user).mundo.sesiones = some s2 ∧
        List.lookup BOT_NUMERO_TELEFONO s2.jugadores = some bot2 ∧
        bot2.equipo ≠ [] ∧
        bot2.equipo.length ≤ MAX_JUGADORES_EQUIPO ∧
        bot2.estado_equipo = EstadoEquipo.CONFIRMADO ∧
        (∀ i ∈ bot2.equipo,
          i ∈ (sesion_tras_confirmacion sesion user j).pool_disponible_para
            BOT_NUMERO_TELEFONO) ∧
        (((sesion_tras_confirmacion sesion user j).pool_disponible_para
              BOT_NUMERO_TELEFONO).filter
            (fun i => ((sesion_tras_confirmacion sesion user j).pool.getD i
              default).rol_preferido == Rol.PORTERO) ≠ [] →
          ∃ g rest, bot2.equipo = g :: rest ∧
            ((sesion_tras_confirmacion sesion user j).pool.getD g
              default).rol_preferido = Rol.PORTERO)) :=
  ⟨fun r cmds w hw hall => bot_traza r cmds w hw hall,
   fun r w user sid sesion j bj hu hs hj hne hconf hbj hbv h2 hdisp =>
     confirmacion_drafta_bot r w user sid sesion j bj hu hs hj hne hconf hbj
       hbv h2 hdisp⟩

/-- Claim C3, witness: on the concrete trace, the three non-confirm
commands keep every scripted-opponent roster empty, and the first
confirmation makes the opponent draft and auto-confirm. -/
theorem bot_reactivo_spec_witness :
    botSinEquipo ([("/sesion Ana Reds", "A"), ("/u ia", "A"),
        ("/s P1 P3", "A")].foldl
      (fun w cu => (procesar_comando rngTraza w cu.1 cu.2).mundo) {}) ∧
    ∃ (s2 : Sesion) (bot2 : JugadorEnSesion),
      List.lookup "ABCDEF"
          (procesar_comando rngTraza mundoT3 "/confirmar" "A").mundo.sesiones =
        some s2 ∧
      List.lookup BOT_NUMERO_TELEFONO s2.jugadores = some bot2 ∧
      bot2.equipo ≠ [] ∧
      bot2.equipo.length ≤ MAX_JUGADORES_EQUIPO ∧
      bot2.estado_equipo = EstadoEquipo.CONFIRMADO ∧
      (∀ i ∈ bot2.equipo,
        i ∈ (sesion_tras_confirmacion sesionT3 "A"
          jugadorT3).pool_disponible_para BOT_NUMERO_TELEFONO) ∧
      (((sesion_tras_confirmacion sesionT3 "A"
            jugadorT3).pool_disponible_para BOT_NUMERO_TELEFONO).filter
          (fun i => ((sesion_tras_confirmacion sesionT3 "A"
            jugadorT3).pool.getD i default).rol_preferido == Rol.PORTERO) ≠ [] →
        ∃ g rest, bot2.equipo = g :: rest ∧
          ((sesion_tras_confirmacion sesionT3 "A" jugadorT3).pool.getD g
            default).rol_preferido = Rol.PORTERO) := by
  constructor
  · exact bot_reactivo_spec.1 rngTraza _ {}
      (fun p hp => absurd hp (List.not_mem_nil p))
      (by decide!)
  · exact bot_reactivo_spec.2 rngTraza mundoT3 "A" "ABCDEF" sesionT3 jugadorT3
      botT3 (by decide) (by decide!) (by decide!) (by decide!) (by decide!)
      (by decide!) (by decide!) (by decide!) (by decide!)

/-! ## Signal lemmas: only the `/confirmar` branch can return a session -/

theorem senal_cmdSesionNueva (r : Rng) (w : Mundo) (partes : List String) (u : String) :
    (cmdSesionNueva r w partes u).senal = none := by
  simp only [cmdSesionNueva]
  repeat' split
  all_goals rfl

theorem senal_cmdUnirse (r : Rng) (w : Mundo) (partes : List String) (u : String) :
    (cmdUnirse r w partes u).senal = none := by
  simp only [cmdUnirse]
  repeat' split
  all_goals rfl

theorem senal_cmdUnirseIa (r : Rng) (w : Mundo) (partes : List String) (u : String)
    (s : Sesion) : (cmdUnirseIa r w partes u s).senal = none := rfl

theorem senal_cmdPool (r : Rng) (w : Mundo) (partes : List String) (s : Sesion) :
    (cmdPool r w partes s).senal = none := by
  simp only [cmdPool]
  repeat' split
  all_goals rfl

theorem senal_cmdDetalle (w : Mundo) (partes : List String) (s : Sesion) :
    (cmdDetalle w partes s).senal = none := by
  simp only [cmdDetalle]
  repeat' split
  all_goals rfl

theorem senal_cmdSeleccionar (w : Mundo) (partes : List String) (u sid : String)
    (s : Sesion) : (cmdSeleccionar w partes u sid s).senal = none := by
  simp only [cmdSeleccionar]
  repeat' split
  all_goals rfl

theorem senal_cmdSeleccionarAuto (r : Rng) (w : Mundo) (u sid : String) (s : Sesion) :
    (cmdSeleccionarAuto r w u sid s).senal = none := by
  simp only [cmdSeleccionarAuto]
  repeat' split
  all_goals rfl

theorem senal_cmdQuitar (w : Mundo) (partes : List String) (u sid : String)
    (s : Sesion) : (cmdQuitar w partes u sid s).senal = none := by
  simp only [cmdQuitar]
  repeat' split
  all_goals rfl

theorem senal_cmdEquipo (w : Mundo) (u : String) (s : Sesion) :
    (cmdEquipo w u s).senal = none := by
  simp only [cmdEquipo]
  repeat' split
  all_goals rfl

theorem senal_cmdEstadisticas (w : Mundo) (s : Sesion) :
    (cmdEstadisticas w s).senal = none := by
  simp only [cmdEstadisticas]
  repeat' split
  all_goals rfl

theorem senal_cmdConfirmar {r : Rng} {w : Mundo} {user sid : String} {s s' : Sesion}
    (h : (cmdConfirmar r w user sid s).senal = some s') :
    s'.equipos_confirmados = true := by
  simp only [cmdConfirmar] at h
  split at h
  · exact Option.noConfusion h
  · split at h
    · exact Option.noConfusion h
    · split at h
      · exact Option.noConfusion h
      · split at h
        · next hcond =>
          simp only [Respuesta.senal] at h
          obtain rfl : _ = s' := Option.some_injective _ h
          exact hcond
        · exact Option.noConfusion h

/-- Unpacking `Sesion.equipos_confirmados` into its three conditions. -/
theorem equipos_confirmados_unfold {s : Sesion} (h : s.equipos_confirmados = true) :
    s.jugadores.length = MAX_JUGADORES_EN_SESION ∧
      ∀ p ∈ s.jugadores, p.2.equipo ≠ [] ∧
        p.2.estado_equipo = EstadoEquipo.CONFIRMADO := by
  unfold Sesion.equipos_confirmados at h
  simp only [Bool.and_eq_true, beq_iff_eq, List.all_eq_true] at h
  obtain ⟨h1, h2⟩ := h
  refine ⟨h1, fun p hp => ?_⟩
  have := h2 p hp
  simp only [JugadorEnSesion.tiene_equipo_completo, JugadorEnSesion.equipo_confirmado,
    Bool.and_eq_true, beq_iff_eq, decide_eq_true_eq] at this
  refine ⟨fun hnil => ?_, this.2⟩
  rw [hnil] at this
  simp at this

theorem senal_despachar {r : Rng} {w : Mundo} {partes : List String}
    {user cmd : String} {s' : Sesion}
    (h : (despachar r w partes user cmd).senal = some s') :
    s'.equipos_confirmados = true := by
  unfold despachar at h
  split at h
  · split at h
    · rw [senal_cmdSesionNueva] at h; exact Option.noConfusion h
    · split at h
      · rw [senal_cmdUnirse] at h; exact Option.noConfusion h
      · exact Option.noConfusion h
  · by_cases h1 : cmd = "/ayuda" ∨ cmd = "/help"
    · rw [if_pos h1] at h; exact Option.noConfusion h
    · rw [if_neg h1] at h
      by_cases h2 : cmd = "/iniciar"
      · rw [if_pos h2] at h; exact Option.noConfusion h
      · rw [if_neg h2] at h
        by_cases h3 : cmd = "/sesion"
        · rw [if_pos h3] at h; exact Option.noConfusion h
        · rw [if_neg h3] at h
          by_cases h4 : cmd = "/unirse"
          · rw [if_pos h4] at h
            split at h
            · rw [senal_cmdUnirseIa] at h; exact Option.noConfusion h
            · exact Option.noConfusion h
          · rw [if_neg h4] at h
            by_cases h5 : cmd = "/salir"
            · rw [if_pos h5] at h; exact Option.noConfusion h
            · rw [if_neg h5] at h
              by_cases h6 : cmd = "/pool"
              · rw [if_pos h6] at h; rw [senal_cmdPool] at h; exact Option.noConfusion h
              · rw [if_neg h6] at h
                by_cases h7 : cmd = "/detalle"
                · rw [if_pos h7] at h; rw [senal_cmdDetalle] at h
                  exact Option.noConfusion h
                · rw [if_neg h7] at h
                  by_cases h8 : cmd = "/seleccionar"
                  · rw [if_pos h8] at h; rw [senal_cmdSeleccionar] at h
                    exact Option.noConfusion h
                  · rw [if_neg h8] at h
                    by_cases h9 : cmd = "/seleccionar_auto"
                    · rw [if_pos h9] at h; rw [senal_cmdSeleccionarAuto] at h
                      exact Option.noConfusion h
                    · rw [if_neg h9] at h
                      by_cases h10 : cmd = "/quitar"
                      · rw [if_pos h10] at h; rw [senal_cmdQuitar] at h
                        exact Option.noConfusion h
                      · rw [if_neg h10] at h
                        by_cases h11 : cmd = "/equipo"
                        · rw [if_pos h11] at h; rw [senal_cmdEquipo] at h
                          exact Option.noConfusion h
                        · rw [if_neg h11] at h
                          by_cases h12 : cmd = "/confirmar"
                          · rw [if_pos h12] at h; exact senal_cmdConfirmar h
                          · rw [if_neg h12] at h
                            by_cases h13 : cmd = "/estadisticas"
                            · rw [if_pos h13] at h; rw [senal_cmdEstadisticas] at h
                              exact Option.noConfusion h
                            · rw [if_neg h13] at h; exact Option.noConfusion h

/-- Claim C2: for every module state and every command, the
ready-to-simulate signal carries a session with exactly two occupied
slots, every roster non-empty and every participant confirmed. -/
theorem senal_solo_con_equipos_confirmados (r : Rng) (w : Mundo)
    (comando user : String) (s' : Sesion)
    (h : (procesar_comando r w comando user).senal = some s') :
    s'.jugadores.length = MAX_JUGADORES_EN_SESION ∧
      ∀ p ∈ s'.jugadores, p.2.equipo ≠ [] ∧
        p.2.estado_equipo = EstadoEquipo.CONFIRMADO := by
  apply equipos_confirmados_unfold
  unfold procesar_comando at h
  split at h
  · exact Option.noConfusion h
  · exact senal_despachar h

/-- Claim C2, witness: the signal returned in the concrete bot trace
carries a session with two confirmed, non-empty rosters. -/
theorem senal_solo_con_equipos_confirmados_witness :
    sesionSenalada.jugadores.length = MAX_JUGADORES_EN_SESION ∧
      ∀ p ∈ sesionSenalada.jugadores, p.2.equipo ≠ [] ∧
        p.2.estado_equipo = EstadoEquipo.CONFIRMADO :=
  senal_solo_con_equipos_confirmados rngTraza mundoT3 "/c" "A" sesionSenalada (by decide!)

/-- Claim C9: player-id normalization is idempotent on every input string,
and case/zero-padding invariant: `normalize("p01") = normalize("P1") = "P1"`
and `"p001"` normalizes to the same id as `"P1"`. -/
theorem normalizar_id_patabolista_spec :
    (∀ s : String,
        normalizar_id_patabolista (normalizar_id_patabolista s) =
          normalizar_id_patabolista s) ∧
    normalizar_id_patabolista "p01" = "P1" ∧
    normalizar_id_patabolista "P1" = "P1" ∧
    normalizar_id_patabolista "p001" = normalizar_id_patabolista "P1" := by
  refine ⟨fun s => ?_, by decide, by decide, by decide⟩
  unfold normalizar_id_patabolista
  exact congrArg String.mk (normalizarIdL_idem s.data)

end Patabol
